import Mathlib

/-!
Shallow embedding, in Lean 4, of the algorithmic core of the `college-data`
repository: the repeat-policy attempt selector (`grading/repeat_policy.py`),
the student metrics aggregation (`students/models.py`), the graduation audit
(`academics/graduation.py`), prerequisite eligibility
(`academics/eligibility.py`), the canonical transcript payload and its stable
JSON serialization (`reporting/canonical_payload.py`), and the transcript
verification system (`reporting/security_features.py`,
`reporting/models.py`).

Modeling conventions:
- Python floats are modeled as exact rationals (ℚ); Python ints as ℕ/ℤ.
- Database rows are modeled as Lean structures; queryset lookups
  (`filter(...).first()`, `get(...)`) become `List.find?` over explicit row
  lists, which are passed in as parameters.
- Django model instances reached through foreign keys are flattened into the
  referencing structure (e.g. `enrollment.course.code` becomes a
  `course_code` field).
- Timestamps are modeled as integers (seconds); `timezone.now()` becomes an
  explicit `now` parameter.
-/

/- The Batteries rational-number operations are `@[irreducible]` by default;
reset them so that concrete witness evaluations can proceed by `decide`. -/
attribute [local semireducible] Rat.mul Rat.add Rat.sub Rat.inv

/-- One row of `grading.models.GradingSettings` (the grading scale):
`grade_name` with its `grade_point`.  Only the fields read by the core
computations are modeled. -/
structure GradingSetting where
  grade_name : String
  grade_point : ℚ
  deriving DecidableEq

/-- One row of `grading.models.Grade`, as visible through its enrollment:
the letter `grade` (a blank CharField, `""` when unset), the approval
`status` (`"DRAFT" / "SUBMITTED" / "APPROVED" / "REJECTED"`), and the
`total_score`. -/
structure Grade where
  grade : String
  status : String
  total_score : ℚ
  deriving DecidableEq

/-- One row of `grading.models.Enrollment`, with the foreign-key data the
core computations dereference (`enrollment.course.code`,
`enrollment.course.title`, `enrollment.course.units`,
`enrollment.session.name`, `enrollment.session.id`, `enrollment.semester`)
flattened in, and the (OneToOne) `Grade` row attached as an `Option`. -/
structure Enrollment where
  id : ℕ
  course_code : String
  course_title : String
  units : ℕ
  session_id : ℕ
  session_name : Option String
  semester : String
  grade : Option Grade
  deriving DecidableEq

/-- The singleton `configuration.models.AcademicPolicySettings` row:
`repeat_policy` (a CharField) and the `require_approved_for_metrics` flag. -/
structure AcademicPolicySettings where
  repeat_policy : String
  require_approved_for_metrics : Bool
  deriving DecidableEq

/-- `GradingSettings.objects.filter(grade_name=name).first()`. -/
def GradingSettings_first (scale : List GradingSetting) (name : String) :
    Option GradingSetting :=
  scale.find? (fun s => s.grade_name == name)

/-! ## `grading/repeat_policy.py` -/

/-- The `SEMESTER_ORDER` dict of `grading/repeat_policy.py`:
`{FIRST: 1, SECOND: 2, SUMMER: 3}`, read with `.get(semester, 0)`. -/
def SEMESTER_ORDER (semester : String) : ℕ :=
  if semester = "FIRST" then 1
  else if semester = "SECOND" then 2
  else if semester = "SUMMER" then 3
  else 0

/-- Reads four leading decimal digits of a character list, if present. -/
def fourDigitHead : List Char → Option ℕ
  | c1 :: c2 :: c3 :: c4 :: _ =>
    if c1.isDigit ∧ c2.isDigit ∧ c3.isDigit ∧ c4.isDigit then
      some ((((c1.toNat - 48) * 10 + (c2.toNat - 48)) * 10 + (c3.toNat - 48)) * 10
        + (c4.toNat - 48))
    else none
  | _ => none

/-- `re.search(r'(\d\d\d\d)', s)`: the leftmost run of four consecutive
decimal digits, as a number. -/
def findFourDigit : List Char → Option ℕ
  | [] => none
  | c :: cs =>
    match fourDigitHead (c :: cs) with
    | some n => some n
    | none => findFourDigit cs

/-- `_session_sort_key` of `grading/repeat_policy.py`: best-effort sort key
for session strings such as `"2023/2024"`; `0` when the session is absent or
contains no four-digit run.  (The `int()` conversion of four digits cannot
fail, so the `ValueError` branch is unreachable.) -/
def session_sort_key (session_name : Option String) : ℕ :=
  match session_name with
  | none => 0
  | some s => (findFourDigit s.toList).getD 0

/-- `term_sort_key` of `grading/repeat_policy.py`: the pair
`(year-from-session, semester ordinal)`, compared lexicographically as in
Python tuple comparison. -/
def term_sort_key (e : Enrollment) : Lex (ℕ × ℕ) :=
  toLex (session_sort_key e.session_name, SEMESTER_ORDER e.semester)

/-- `grade_point_for_enrollment` of `grading/repeat_policy.py`: `-1.0` when
the enrollment has no grade, a blank letter grade, or no matching grading
setting; otherwise the setting's grade point. -/
def grade_point_for_enrollment (scale : List GradingSetting) (e : Enrollment) : ℚ :=
  match e.grade with
  | none => -1
  | some g =>
    if g.grade = "" then -1
    else
      match GradingSettings_first scale g.grade with
      | none => -1
      | some s => s.grade_point

/-- Python's `max(iterable, key=k)` over a nonempty list `x :: xs`: scans
left to right and replaces the current maximum only on a strictly greater
key, so the first maximal element is kept. -/
def pyMax {α κ : Type} [LinearOrder κ] (key : α → κ) : α → List α → α
  | x, [] => x
  | x, y :: ys => pyMax key (if key x < key y then y else x) ys

/-- First-occurrence deduplication, matching the key order of a Python dict
built with `setdefault`. -/
def pyDictKeys (l : List String) : List String :=
  l.foldl (fun acc c => if c ∈ acc then acc else acc ++ [c]) []

/-- Python's `str.upper()` (over the characters of the string; the policy
and verification-code strings at hand are ASCII). -/
def pyUpper (s : String) : String :=
  String.mk (s.toList.map Char.toUpper)

/-- Python's `str.strip()`: whitespace removed from both ends. -/
def pyStrip (s : String) : String :=
  String.mk (((s.toList.dropWhile Char.isWhitespace).reverse.dropWhile
    Char.isWhitespace).reverse)

/-- `(repeat_policy or 'ALL').upper()`: `None` and the empty string
normalize to `'ALL'`; anything else is uppercased. -/
def normalize_repeat_policy (repeat_policy : Option String) : String :=
  pyUpper (match repeat_policy with
   | none => "ALL"
   | some s => if s = "" then "ALL" else s)

/-- The sort key used by the `BEST` branch of `select_enrollments_for_gpa`:
`(grade_point_for_enrollment(x), term_sort_key(x))`, compared
lexicographically. -/
def best_sort_key (scale : List GradingSetting) (e : Enrollment) :
    Lex (ℚ × Lex (ℕ × ℕ)) :=
  toLex (grade_point_for_enrollment scale e, term_sort_key e)

/-- Body of the `for _course_code, attempts in by_course.items()` loop of
`select_enrollments_for_gpa`: the group of attempts for one course code, and
the chosen-id set updated according to the (normalized) policy `p`. -/
def selectStep (scale : List GradingSetting) (enrollments : List Enrollment)
    (p : String) (chosen : Finset ℕ) (code : String) : Finset ℕ :=
  match enrollments.filter (fun e => e.course_code == code) with
  | [] => chosen
  | a :: rest =>
    if p = "LATEST" then insert (pyMax term_sort_key a rest).id chosen
    else if p = "BEST" then
      insert (pyMax (best_sort_key scale) a rest).id chosen
    else chosen ∪ (((a :: rest).map (·.id)).toFinset : Finset ℕ)

/-- `select_enrollments_for_gpa` of `grading/repeat_policy.py`: the set of
enrollment ids counted for GPA/CGPA.  `ALL` counts every enrollment;
`LATEST`/`BEST` keep one attempt per course code; any other (normalized)
policy value falls through to the safe default that counts every attempt of
each course group. -/
def select_enrollments_for_gpa (scale : List GradingSetting)
    (enrollments : List Enrollment) (repeat_policy : Option String) : Finset ℕ :=
  let p := normalize_repeat_policy repeat_policy
  if p = "ALL" then (enrollments.map (·.id)).toFinset
  else
    (pyDictKeys (enrollments.map (·.course_code))).foldl
      (selectStep scale enrollments p) ∅

/-! ## `students/models.py` — `Student.update_academic_metrics` -/

/-- Round half to even (Python's `round` tie-breaking) to an integer. -/
def roundHalfEven (x : ℚ) : ℤ :=
  let f := x.floor
  if x - f < 1 / 2 then f
  else if x - f > 1 / 2 then f + 1
  else if f % 2 = 0 then f else f + 1

/-- Python's `round(x, 2)`, on the exact rational value. -/
def pyRound2 (x : ℚ) : ℚ :=
  (roundHalfEven (x * 100) : ℚ) / 100

/-- Accumulator of the `update_academic_metrics` loop:
`(total_grade_points, total_units, passed_units, sessions_set)`. -/
structure MetricsAcc where
  total_grade_points : ℚ
  total_units : ℕ
  passed_units : ℕ
  sessions_set : Finset ℕ
  deriving DecidableEq

/-- One iteration of the `for enrollment in enrollments` loop of
`Student.update_academic_metrics`.  A missing grade row or missing grading
setting is caught (`Grade.DoesNotExist, GradingSettings.DoesNotExist`) and
still counts attempted units for counted enrollments; an existing grade that
is not APPROVED while `require_approved_for_metrics` is set hits `continue`
and is skipped entirely. -/
def metricsStep (scale : List GradingSetting) (pol : AcademicPolicySettings)
    (counted : Finset ℕ) (acc : MetricsAcc) (e : Enrollment) : MetricsAcc :=
  match e.grade with
  | none =>
    { acc with
      total_units := if e.id ∈ counted then acc.total_units + e.units else acc.total_units
      sessions_set := insert e.session_id acc.sessions_set }
  | some g =>
    if pol.require_approved_for_metrics ∧ g.status ≠ "APPROVED" then acc
    else
      match GradingSettings_first scale g.grade with
      | none =>
        { acc with
          total_units := if e.id ∈ counted then acc.total_units + e.units else acc.total_units
          sessions_set := insert e.session_id acc.sessions_set }
      | some gs =>
        { total_grade_points :=
            if e.id ∈ counted then acc.total_grade_points + gs.grade_point * e.units
            else acc.total_grade_points
          total_units := if e.id ∈ counted then acc.total_units + e.units else acc.total_units
          passed_units :=
            if gs.grade_point > 0 then acc.passed_units + e.units else acc.passed_units
          sessions_set := insert e.session_id acc.sessions_set }

/-- The metric fields written back by `Student.update_academic_metrics`. -/
structure StudentMetrics where
  current_cgpa : ℚ
  total_units_attempted : ℕ
  total_units_passed : ℕ
  total_sessions_completed : ℕ
  deriving DecidableEq

/-- `Student.update_academic_metrics` of `students/models.py`: selects the
counted enrollment ids under the active repeat policy, folds the metrics
loop over all enrollments, and derives `current_cgpa` (0.0 when no counted
units). -/
def update_academic_metrics (scale : List GradingSetting)
    (pol : AcademicPolicySettings) (enrollments : List Enrollment) : StudentMetrics :=
  let counted := select_enrollments_for_gpa scale enrollments (some pol.repeat_policy)
  let acc := enrollments.foldl (metricsStep scale pol counted) ⟨0, 0, 0, ∅⟩
  { current_cgpa :=
      if acc.total_units > 0 then pyRound2 (acc.total_grade_points / acc.total_units)
      else 0
    total_units_attempted := acc.total_units
    total_units_passed := acc.passed_units
    total_sessions_completed := acc.sessions_set.card }

/-! ## `academics/graduation.py` -/

/-- `_grade_point` of `academics/graduation.py`: `None` when the enrollment
has no grade row or a blank letter grade, when approval gating rejects the
grade, or when no grading setting matches; otherwise the grade point. -/
def grade_point_of (scale : List GradingSetting) (require_approved : Bool)
    (e : Enrollment) : Option ℚ :=
  match e.grade with
  | none => none
  | some g =>
    if g.grade = "" then none
    else if require_approved ∧ g.status ≠ "APPROVED" then none
    else (GradingSettings_first scale g.grade).map (·.grade_point)

/-- Body of the enrollment loop of `compute_cgpa_for_program` in
`academics/graduation.py`: an enrollment with a resolved grade point adds
`units * grade_point` to the points and `units` to the units; anything else
is skipped (`continue`). -/
def compute_step (scale : List GradingSetting) (require_approved : Bool)
    (a : ℚ × ℕ) (e : Enrollment) : ℚ × ℕ :=
  match grade_point_of scale require_approved e with
  | none => a
  | some gp => (a.1 + e.units * gp, a.2 + e.units)

/-- `compute_cgpa_for_program` of `academics/graduation.py`: iterates every
enrollment of the student (no repeat-policy attempt selection), accumulating
via `compute_step`, and returns `(round(points/units, 2), units)`, or
`(0.0, 0)` when no units accumulated. -/
def compute_cgpa_for_program (scale : List GradingSetting) (require_approved : Bool)
    (enrollments : List Enrollment) : ℚ × ℕ :=
  let acc := enrollments.foldl (compute_step scale require_approved) (0, 0)
  if acc.2 = 0 then (0, 0) else (pyRound2 (acc.1 / acc.2), acc.2)

/-- `passed_course` of `academics/graduation.py`: true iff some enrollment
of the student in the course resolves to a grade point strictly greater
than zero. -/
def passed_course (scale : List GradingSetting) (require_approved : Bool)
    (enrollments : List Enrollment) (course_code : String) : Bool :=
  (enrollments.filter (fun e => e.course_code == course_code)).any fun e =>
    match grade_point_of scale require_approved e with
    | none => false
    | some gp => decide (gp > 0)

/-- One row of `academics.models.ProgramClassificationThreshold`.  The model
declares `ordering = [-min_cgpa]`, so lists obtained from the database are
ordered by descending `min_cgpa`. -/
structure ProgramClassificationThreshold where
  label : String
  min_cgpa : ℚ
  deriving DecidableEq

/-- One row of `academics.models.CurriculumCourse`, flattened to the fields
the audit reads. -/
structure CurriculumCourse where
  course_code : String
  is_compulsory : Bool
  deriving DecidableEq

/-- `academics.models.Program`, with its related classification thresholds
(as returned by `classification_thresholds.all()`, i.e. in the model's
descending `min_cgpa` order) and curriculum rows attached. -/
structure Program where
  classification_scheme : String
  min_units_to_graduate : ℕ
  classification_thresholds : List ProgramClassificationThreshold
  curriculum_courses : List CurriculumCourse
  deriving DecidableEq

/-- The legacy default classification ladders hard-coded in `classify`:
the BSC ladder for `classification_scheme == CLASS_SCHEME_BSC`, otherwise
the ND/HND ladder. -/
def default_ladder (classification_scheme : String) :
    List (String × ℚ) :=
  if classification_scheme = "BSC" then
    [("First Class", 7 / 2), ("Second Class Upper", 3), ("Second Class Lower", 2),
     ("Third Class", 1), ("Fail", 0)]
  else
    [("Distinction", 7 / 2), ("Upper Credit", 3), ("Lower Credit", 5 / 2),
     ("Pass", 2), ("Fail", 0)]

/-- `classify` of `academics/graduation.py`: first configured threshold (in
list order) whose `min_cgpa` is at most the cgpa, with the last threshold as
fallback; when no thresholds are configured, the scheme's legacy default
ladder with a final `'Fail'` fallback. -/
def classify (program : Program) (cgpa : ℚ) : String :=
  if program.classification_thresholds = [] then
    match (default_ladder program.classification_scheme).find?
        (fun t => decide (cgpa ≥ t.2)) with
    | some t => t.1
    | none => "Fail"
  else
    match program.classification_thresholds.find? (fun t => decide (cgpa ≥ t.min_cgpa)) with
    | some t => t.label
    | none => ((program.classification_thresholds.getLast?).map (·.label)).getD ""

/-- `sorted(set(l))` for strings. -/
def pySortedSet (l : List String) : List String :=
  (pyDictKeys l).mergeSort (fun a b => decide (a ≤ b))

/-- Result record of `audit_student_graduation`. -/
structure GraduationAuditResult where
  eligible : Bool
  cgpa : ℚ
  total_units_earned : ℕ
  missing_compulsory_courses : List String
  classification : Option String
  notes : List String
  deriving DecidableEq

/-- `audit_student_graduation` of `academics/graduation.py`.  The student's
program is `none` when no program is assigned; `enrollments` is the
student's entire enrollment history. -/
def audit_student_graduation (scale : List GradingSetting)
    (pol : AcademicPolicySettings) (program? : Option Program)
    (enrollments : List Enrollment) : GraduationAuditResult :=
  match program? with
  | none => ⟨false, 0, 0, [], none, ["Student has no program assigned"]⟩
  | some program =>
    let ra := pol.require_approved_for_metrics
    let cu := compute_cgpa_for_program scale ra enrollments
    let missing := (program.curriculum_courses.filter (·.is_compulsory)).filterMap
      (fun cc =>
        if passed_course scale ra enrollments cc.course_code then none
        else some cc.course_code)
    let eligible1 := missing = []
    let eligible := eligible1 ∧ (program.min_units_to_graduate = 0 ∨
      ¬ cu.2 < program.min_units_to_graduate)
    let notes :=
      (if missing = [] then [] else
        ["Missing compulsory courses: " ++ String.intercalate ", " (pySortedSet missing)]) ++
      (if program.min_units_to_graduate ≠ 0 ∧ cu.2 < program.min_units_to_graduate then
        ["Insufficient units: " ++ toString cu.2 ++ "/" ++ toString program.min_units_to_graduate]
      else [])
    { eligible := eligible
      cgpa := cu.1
      total_units_earned := cu.2
      missing_compulsory_courses := pySortedSet missing
      classification := if eligible then some (classify program cu.1) else none
      notes := notes }

/-! ## `academics/eligibility.py` -/

/-- `student_passed_course` of `academics/eligibility.py`: true iff some
enrollment of the student in the course has a nonblank letter grade that
passes approval gating and whose grading setting has `grade_point > 0`.
(The per-enrollment logic is inlined in the source, independently of
`academics/graduation.py`.) -/
def student_passed_course (scale : List GradingSetting) (require_approved : Bool)
    (enrollments : List Enrollment) (course_code : String) : Bool :=
  (enrollments.filter (fun e => e.course_code == course_code)).any fun e =>
    match e.grade with
    | none => false
    | some g =>
      if g.grade = "" then false
      else if require_approved ∧ g.status ≠ "APPROVED" then false
      else
        match GradingSettings_first scale g.grade with
        | none => false
        | some gs => decide (gs.grade_point > 0)

/-- `check_prerequisites` of `academics/eligibility.py`: `prereq_codes` are
the `prerequisite_course.code` values of the `Prerequisite` rows for the
(program, course) pair, in query order.  Returns `(ok, reason)`. -/
def check_prerequisites (scale : List GradingSetting) (require_approved : Bool)
    (enrollments : List Enrollment) (prereq_codes : List String) :
    Bool × Option String :=
  let missing := prereq_codes.filter
    (fun c => ¬ student_passed_course scale require_approved enrollments c)
  if missing ≠ [] then
    (false, some ("Missing prerequisites: " ++ String.intercalate ", " missing))
  else (true, none)

/-! ## JSON values and `canonical_json` (`reporting/canonical_payload.py`) -/

/-- JSON values as produced by the payload builder: `None`, strings, ints,
floats (exact rationals), lists, and dicts (association lists; Python dict
keys are unique). -/
inductive Json where
  | null
  | str (s : String)
  | int (n : ℤ)
  | float (q : ℚ)
  | arr (elems : List Json)
  | obj (entries : List (String × Json))

/-- One hexadecimal digit, lowercase. -/
def hexDigit (d : ℕ) : Char :=
  Char.ofNat (if d < 10 then 48 + d else 87 + d)

/-- JSON string escaping as done by `json.dumps(..., ensure_ascii=False)`:
quote, backslash and control characters are escaped, everything else is
emitted as-is. -/
def escapeChar (c : Char) : String :=
  if c = '"' then "\\\""
  else if c = '\\' then "\\\\"
  else if c = '\n' then "\\n"
  else if c = '\t' then "\\t"
  else if c = '\r' then "\\r"
  else if c = '\x08' then "\\b"
  else if c = '\x0c' then "\\f"
  else if c.toNat < 32 then
    "\\u00" ++ String.mk [hexDigit (c.toNat / 16), hexDigit (c.toNat % 16)]
  else String.singleton c

/-- Escape a whole string for JSON output. -/
def escapeString (s : String) : String :=
  String.join (s.toList.map escapeChar)

/-- Natural number rendered with leading zeros to a fixed width. -/
def padZeros (width : ℕ) (m : ℕ) : String :=
  let s := toString m
  String.mk (List.replicate (width - s.length) '0') ++ s

/-- Smallest number of decimal digits representing `q` exactly, if ≤ 17. -/
def decExpOf (q : ℚ) : Option ℕ :=
  (List.range 18).find? (fun k => (q * 10 ^ k).den = 1)

/-- Rendering of a Python float value (`repr`): integral values get a
trailing `.0`; other values are written with the least number of decimal
digits that represents the rational exactly.  Values with no short decimal
representation fall back to a fraction rendering (such values do not occur
as Python floats of the data at hand; any deterministic rendering
suffices). -/
def floatRepr (q : ℚ) : String :=
  if q.den = 1 then toString q.num ++ ".0"
  else
    match decExpOf q with
    | some k =>
      let n := (q * 10 ^ k).num
      (if n < 0 then "-" else "") ++ toString (n.natAbs / 10 ^ k) ++ "." ++
        padZeros k (n.natAbs % 10 ^ k)
    | none => toString q.num ++ "/" ++ toString q.den

/-- Key-based ordering of rendered object entries (`sort_keys=True`). -/
def pairLe (a b : String × String) : Bool :=
  decide (a.1 ≤ b.1)

mutual

/-- `canonical_json` of `reporting/canonical_payload.py`:
`json.dumps(payload, sort_keys=True, separators=(',', ':'),
ensure_ascii=False)`.  Object entries are serialized and then emitted in
ascending key order with `,` and `:` separators and no whitespace. -/
def canonical_json : Json → String
  | .null => "null"
  | .str s => "\"" ++ escapeString s ++ "\""
  | .int n => toString n
  | .float q => floatRepr q
  | .arr xs => "[" ++ String.intercalate "," (serArr xs) ++ "]"
  | .obj kvs =>
    "\x7b" ++ String.intercalate ","
      (((serObj kvs).mergeSort pairLe).map
        (fun kv => "\"" ++ escapeString kv.1 ++ "\":" ++ kv.2)) ++ "\x7d"

/-- Serialize each element of a JSON array. -/
def serArr : List Json → List String
  | [] => []
  | x :: xs => canonical_json x :: serArr xs

/-- Serialize the value of each object entry, keeping its key. -/
def serObj : List (String × Json) → List (String × String)
  | [] => []
  | (k, v) :: kvs => (k, canonical_json v) :: serObj kvs

end

/-- `students.models.Student`, restricted to the identity fields the
canonical payload and the verification system read (level/session names
flattened from their foreign keys). -/
structure Student where
  student_id : String
  first_name : String
  last_name : String
  entry_level : Option String
  current_level : Option String
  current_session : Option String
  deriving DecidableEq

/-- `configuration.models.CollegeSettings` (both CharFields are nullable). -/
structure CollegeSettings where
  college_name : Option String
  college_address : Option String
  deriving DecidableEq

/-- `None`-or-string to JSON. -/
def jsonOfOptStr : Option String → Json
  | none => .null
  | some s => .str s

/-- One line item of the canonical payload, built by the loop of
`build_canonical_transcript_payload`: grade data comes from the
enrollment's grade row, and `grade_point` is resolved from the grading
scale only when the letter grade is nonempty (`if grade_name:`). -/
def enrollment_item (scale : List GradingSetting) (e : Enrollment) : Json :=
  .obj
    [("session", jsonOfOptStr e.session_name),
     ("semester", .str e.semester),
     ("course_code", .str e.course_code),
     ("course_title", .str e.course_title),
     ("units", .int e.units),
     ("grade", match e.grade with | none => .null | some g => .str g.grade),
     ("total_score", match e.grade with | none => .null | some g => .float g.total_score),
     ("grade_point",
      match e.grade with
      | none => .null
      | some g =>
        if g.grade = "" then .null
        else
          match GradingSettings_first scale g.grade with
          | none => .null
          | some gs => .float gs.grade_point)]

/-- The three top-level entries of the canonical transcript payload. -/
def payload_entries (scale : List GradingSetting) (student : Student)
    (enrollments : List Enrollment) (college_settings : Option CollegeSettings) :
    List (String × Json) :=
  [("college",
    .obj
      [("name", jsonOfOptStr (college_settings.bind (·.college_name))),
       ("address", jsonOfOptStr (college_settings.bind (·.college_address)))]),
   ("student",
    .obj
      [("student_id", .str student.student_id),
       ("first_name", .str student.first_name),
       ("last_name", .str student.last_name),
       ("entry_level", jsonOfOptStr student.entry_level),
       ("current_level", jsonOfOptStr student.current_level),
       ("current_session", jsonOfOptStr student.current_session)]),
   ("enrollments", .arr (enrollments.map (enrollment_item scale)))]

/-- `build_canonical_transcript_payload` of
`reporting/canonical_payload.py`. -/
def build_canonical_transcript_payload (scale : List GradingSetting)
    (student : Student) (enrollments : List Enrollment)
    (college_settings : Option CollegeSettings) : Json :=
  .obj (payload_entries scale student enrollments college_settings)

/-! ## `reporting/security_features.py` and `reporting/models.py` -/

/-- Modelled from the spec: §4.6 DocumentHasher.
`DigitalSignatureSystem.generate_document_hash` calls
`hashlib.sha256(content.encode('utf-8')).hexdigest()`; `hashlib` is the
Python standard library, outside this repository's sources.  The spec
requires a deterministic fixed-length (256-bit, 64 hex digit) content
fingerprint; SHA-256 itself is modeled by a deterministic fold over the
content's characters.  No claim depends on the internals of the compression
function. -/
def generate_document_hash (transcript_content : String) : String :=
  let h := transcript_content.toList.foldl
    (fun a c => (a * 16777619 + (c.toNat + 1)) % 2 ^ 256) 1469598103934665603
  let ds := Nat.toDigits 16 h
  String.mk (List.replicate (64 - ds.length) '0') ++ String.mk ds

/-- `TranscriptVerificationSystem.generate_verification_code`: the SHA-256
hex digest (same external hash, same model) of
`"{student_id}:{generation_timestamp.isoformat()}:{SECRET_KEY}"`, truncated
to 12 characters, uppercased and prefixed with `TXN-`.  The timestamp's ISO
rendering is modeled by its decimal rendering (any injective rendering of
the timestamp gives the same code structure). -/
def generate_verification_code (secret : String) (student_id : String)
    (generation_timestamp : ℤ) : String :=
  let hash_input := student_id ++ ":" ++ toString generation_timestamp ++ ":" ++ secret
  "TXN-" ++ pyUpper (String.mk ((generate_document_hash hash_input).toList.take 12))

/-- `DigitalSignatureSystem.create_signature_data` (the `issuer_id` database
pk is not modeled). -/
structure SignatureData where
  student_id : String
  document_hash : String
  algorithm : String
  timestamp : ℤ
  issuer : Option String
  signature_version : String
  deriving DecidableEq

/-- Build the signature data structure. -/
def create_signature_data (student_id : String) (transcript_hash : String)
    (college_settings : Option CollegeSettings) (now : ℤ) : SignatureData :=
  { student_id := student_id
    document_hash := transcript_hash
    algorithm := "SHA256"
    timestamp := now
    issuer := match college_settings with
      | some c => c.college_name
      | none => some "Unknown College"
    signature_version := "1.0" }

/-- The `verification_data` dict assembled by
`create_secure_transcript_data` and stored as the record's `payload_json`
(the time-dependent `verified_at` key added to returned copies is display
metadata and is not modeled as part of the stored data). -/
structure VerificationData where
  student_id : String
  student_name : String
  generation_timestamp : ℤ
  document_hash : String
  signature_data : SignatureData
  college_name : Option String
  verification_url : String
  canonical_payload : Option Json

/-- `reporting.models.TranscriptVerificationRecord` (durable row).
`created_at` is not read by any modeled computation. -/
structure TranscriptVerificationRecord where
  verification_code : String
  student_id : String
  student_name : String
  generation_timestamp : ℤ
  document_hash : String
  college_name : Option String
  verification_url : String
  payload_json : VerificationData
  expires_at : Option ℤ
  revoked_at : Option ℤ

/-- `TranscriptVerificationRecord.is_active`: false if revoked, false if
expired (`expires_at <= now`), true otherwise. -/
def is_active (r : TranscriptVerificationRecord) (now : ℤ) : Bool :=
  if r.revoked_at.isSome then false
  else
    match r.expires_at with
    | some t => decide (¬ t ≤ now)
    | none => true

/-- The durable store, keyed by unique `verification_code`.  The Django
cache mirror is a best-effort read optimization reached only on database
exceptions; the pure model has no exceptional path, so only the durable
store is modeled. -/
abbrev Store : Type := List TranscriptVerificationRecord

/-- `self.verification_cache_timeout = 86400 * 30` (seconds). -/
def verification_cache_timeout : ℤ := 86400 * 30

/-- `TranscriptVerificationRecord.objects.update_or_create(verification_code=...,
defaults=...)`: update the listed fields of the existing row with this code,
or insert a new row.  `revoked_at` is not among the defaults, so an existing
row keeps its revocation timestamp. -/
def update_or_create (store : Store) (code : String)
    (r : TranscriptVerificationRecord) : Store :=
  match store.find? (fun x => x.verification_code == code) with
  | none => store ++ [r]
  | some old =>
    store.map
      (fun x => if x.verification_code == code then
        { r with revoked_at := old.revoked_at } else x)

/-- `TranscriptVerificationSystem.store_verification_data`: fails (returns
`false`, storing nothing durably) when the payload carries no student id or
the student does not exist; otherwise persists the record with
`expires_at = now + verification_cache_timeout`.  `students` is the set of
existing `Student.student_id` values. -/
def store_verification_data (students : List String) (now : ℤ) (store : Store)
    (verification_code : String) (d : VerificationData) : Bool × Store :=
  if d.student_id = "" then (false, store)
  else if ¬ d.student_id ∈ students then (false, store)
  else
    (true,
     update_or_create store verification_code
       { verification_code := verification_code
         student_id := d.student_id
         student_name := d.student_name
         generation_timestamp := d.generation_timestamp
         document_hash := d.document_hash
         college_name := d.college_name
         verification_url := d.verification_url
         payload_json := d
         expires_at := some (now + verification_cache_timeout)
         revoked_at := none })

/-- The `transcript_content` argument of `create_secure_transcript_data`: a
dict (hashed through `canonical_json`) or arbitrary text (hashed through
`str(...)`). -/
inductive TranscriptContent where
  | dict (entries : List (String × Json))
  | text (s : String)

/-- The `security_features` dict returned by
`create_secure_transcript_data` (the QR-code image path, a filesystem side
effect, is not modeled). -/
structure SecurityFeatures where
  verification_code : String
  document_hash : String
  signature_data : SignatureData
  verification_url : String
  generation_timestamp : ℤ
  deriving DecidableEq

/-- `SecureTranscriptFeatures.create_secure_transcript_data` (issuance):
generates the verification code, hashes the content (via `canonical_json`
for dicts), assembles the verification data — storing the dict itself as
`canonical_payload`, or `None` for non-dict content — persists it (the
boolean result of storage is ignored by the source), and returns the
security features. -/
def create_secure_transcript_data (secret : String)
    (base_verification_url : String) (students : List String)
    (college_settings : Option CollegeSettings) (now : ℤ) (store : Store)
    (student : Student) (transcript_content : TranscriptContent) :
    SecurityFeatures × Store :=
  let code := generate_verification_code secret student.student_id now
  let document_hash :=
    match transcript_content with
    | .dict l => generate_document_hash (canonical_json (.obj l))
    | .text s => generate_document_hash s
  let signature_data := create_signature_data student.student_id document_hash
    college_settings now
  let verification_url := base_verification_url ++ "?code=" ++ code
  let d : VerificationData :=
    { student_id := student.student_id
      student_name := student.first_name ++ " " ++ student.last_name
      generation_timestamp := now
      document_hash := document_hash
      signature_data := signature_data
      college_name := match college_settings with
        | some c => c.college_name
        | none => some "Unknown"
      verification_url := verification_url
      canonical_payload := match transcript_content with
        | .dict l => some (.obj l)
        | .text _ => none }
  let stored := store_verification_data students now store code d
  ({ verification_code := code
     document_hash := document_hash
     signature_data := signature_data
     verification_url := verification_url
     generation_timestamp := now },
   stored.2)

/-- Python truthiness of a JSON value (`if not payload`). -/
def jsonFalsy : Json → Bool
  | .null => true
  | .str s => s = ""
  | .int n => n = 0
  | .float q => q = 0
  | .arr l => l.isEmpty
  | .obj l => l.isEmpty

/-- `SecureTranscriptFeatures._validate_tamper_evidence`: a record lacking a
(truthy) stored canonical payload or stored digest passes without a tamper
check (backward compatibility for old records); otherwise the digest is
recomputed from the stored canonical payload via `canonical_json` and
compared to the stored digest. -/
def validate_tamper_evidence (d : VerificationData) : Bool × Option String :=
  match d.canonical_payload with
  | none => (true, none)
  | some p =>
    if jsonFalsy p ∨ d.document_hash = "" then (true, none)
    else if generate_document_hash (canonical_json p) = d.document_hash then
      (true, none)
    else (false, some "Transcript data does not match stored hash (possible tampering)")

/-- `TranscriptVerificationSystem.verify_transcript`: normalize the code
(`strip().upper()`), load the durable record, and return its stored payload
when the record exists and is active; `None` otherwise.  Never mutates the
record. -/
def verify_transcript (store : Store) (now : ℤ) (verification_code : String) :
    Option VerificationData :=
  let norm := pyUpper (pyStrip verification_code)
  match store.find? (fun r => r.verification_code == norm) with
  | none => none
  | some record =>
    if is_active record now then some record.payload_json else none

/-- The structured result of `verify_transcript_security`. -/
structure VerifyOutcome where
  valid : Bool
  error : Option String
  data : Option VerificationData
  verified_at : ℤ

/-- `SecureTranscriptFeatures.verify_transcript_security`: look up the
record; absent or inactive gives the invalid-or-expired result; otherwise
run the tamper validation and report its verdict together with the stored
data. -/
def verify_transcript_security (store : Store) (now : ℤ)
    (verification_code : String) : VerifyOutcome :=
  match verify_transcript store now verification_code with
  | some d =>
    let te := validate_tamper_evidence d
    if te.1 then { valid := true, error := none, data := some d, verified_at := now }
    else { valid := false, error := te.2, data := some d, verified_at := now }
  | none =>
    { valid := false, error := some "Invalid or expired verification code"
      data := none, verified_at := now }

/-! ## Helper lemmas -/

lemma pyMax_cons {α κ : Type} [LinearOrder κ] (key : α → κ) (x y : α) (ys : List α) :
    pyMax key x (y :: ys) = pyMax key (if key x < key y then y else x) ys := rfl

lemma pyMax_mem {α κ : Type} [LinearOrder κ] (key : α → κ) (x : α) (ys : List α) :
    pyMax key x ys ∈ x :: ys := by
  induction ys generalizing x with
  | nil => simp [pyMax]
  | cons y ys ih =>
    rw [pyMax_cons]
    have h := ih (if key x < key y then y else x)
    rcases List.mem_cons.1 h with h1 | h1
    · rw [h1]
      split
      · simp
      · simp
    · simp [List.mem_cons, h1]

lemma pyMax_le {α κ : Type} [LinearOrder κ] (key : α → κ) (x : α) (ys : List α) :
    ∀ z ∈ x :: ys, key z ≤ key (pyMax key x ys) := by
  induction ys generalizing x with
  | nil =>
    intro z hz
    rcases List.mem_cons.1 hz with rfl | h
    · simp [pyMax]
    · simp at h
  | cons y ys ih =>
    intro z hz
    rw [pyMax_cons]
    have hbase : key (if key x < key y then y else x) ≤
        key (pyMax key (if key x < key y then y else x) ys) :=
      ih _ _ (List.mem_cons_self _ _)
    rcases List.mem_cons.1 hz with rfl | hz1
    · refine le_trans ?_ hbase
      split
      · exact le_of_lt (by assumption)
      · exact le_rfl
    · rcases List.mem_cons.1 hz1 with rfl | hz2
      · refine le_trans ?_ hbase
        split
        · exact le_rfl
        · exact le_of_not_lt (by assumption)
      · exact ih _ z (List.mem_cons_of_mem _ hz2)

lemma pyDictKeys_foldl_mem (l : List String) : ∀ (acc : List String) (x : String),
    (x ∈ l.foldl (fun acc c => if c ∈ acc then acc else acc ++ [c]) acc) ↔
      x ∈ acc ∨ x ∈ l := by
  induction l with
  | nil => intro acc x; simp
  | cons c l ih =>
    intro acc x
    rw [List.foldl_cons, ih]
    by_cases hc : c ∈ acc
    · simp only [if_pos hc, List.mem_cons]
      constructor
      · rintro (h | h)
        · exact Or.inl h
        · exact Or.inr (Or.inr h)
      · rintro (h | rfl | h)
        · exact Or.inl h
        · exact Or.inl hc
        · exact Or.inr h
    · simp only [if_neg hc, List.mem_append, List.mem_singleton, List.mem_cons]
      tauto

lemma pyDictKeys_mem (l : List String) (x : String) : x ∈ pyDictKeys l ↔ x ∈ l := by
  unfold pyDictKeys
  rw [pyDictKeys_foldl_mem]
  simp

lemma pyDictKeys_eq_nil (l : List String) : pyDictKeys l = [] ↔ l = [] := by
  constructor
  · intro h
    cases l with
    | nil => rfl
    | cons c l =>
      have hmem : c ∈ pyDictKeys (c :: l) :=
        (pyDictKeys_mem _ _).2 (List.mem_cons_self _ _)
      rw [h] at hmem
      simp at hmem
  · rintro rfl
    rfl

lemma pyDictKeys_foldl_stable (l : List String) : ∀ (acc : List String),
    (∀ c ∈ l, c ∈ acc) →
    l.foldl (fun acc c => if c ∈ acc then acc else acc ++ [c]) acc = acc := by
  induction l with
  | nil => intro acc _; rfl
  | cons c l ih =>
    intro acc h
    rw [List.foldl_cons, if_pos (h c (List.mem_cons_self _ _))]
    exact ih acc (fun d hd => h d (List.mem_cons_of_mem _ hd))

lemma pyDictKeys_const (l : List String) (c : String) (hne : l ≠ [])
    (h : ∀ x ∈ l, x = c) : pyDictKeys l = [c] := by
  cases l with
  | nil => exact absurd rfl hne
  | cons d l =>
    have hd : d = c := h d (List.mem_cons_self _ _)
    subst hd
    unfold pyDictKeys
    rw [List.foldl_cons]
    have hif : (if d ∈ ([] : List String) then ([] : List String) else [] ++ [d]) = [d] := by
      simp
    rw [hif]
    exact pyDictKeys_foldl_stable l [d]
      (fun x hx => by rw [h x (List.mem_cons_of_mem _ hx)]; exact List.mem_singleton_self _)

lemma selectStep_unknown (scale : List GradingSetting) (es : List Enrollment)
    (p : String) (hp1 : p ≠ "LATEST") (hp2 : p ≠ "BEST") (chosen : Finset ℕ)
    (code : String) :
    selectStep scale es p chosen code =
      chosen ∪ ((es.filter (fun e => e.course_code == code)).map (·.id)).toFinset := by
  rcases h : es.filter (fun e => e.course_code == code) with _ | ⟨a, rest⟩
  · simp [selectStep, h]
  · simp [selectStep, h, hp1, hp2]

lemma foldl_selectStep_unknown (scale : List GradingSetting) (es : List Enrollment)
    (p : String) (hp1 : p ≠ "LATEST") (hp2 : p ≠ "BEST") :
    ∀ (codes : List String) (chosen : Finset ℕ),
      codes.foldl (selectStep scale es p) chosen =
        chosen ∪ ((es.filter (fun e => decide (e.course_code ∈ codes))).map (·.id)).toFinset := by
  intro codes
  induction codes with
  | nil => intro chosen; simp
  | cons c codes ih =>
    intro chosen
    rw [List.foldl_cons, selectStep_unknown scale es p hp1 hp2, ih]
    ext x
    simp only [Finset.mem_union, List.mem_toFinset, List.mem_map, List.mem_filter,
      List.mem_cons, decide_eq_true_eq, beq_iff_eq]
    constructor
    · rintro ((hx | ⟨e, ⟨he, hc⟩, hid⟩) | ⟨e, ⟨he, hc⟩, hid⟩)
      · exact Or.inl hx
      · exact Or.inr ⟨e, ⟨he, Or.inl hc⟩, hid⟩
      · exact Or.inr ⟨e, ⟨he, Or.inr hc⟩, hid⟩
    · rintro (hx | ⟨e, ⟨he, hc | hc⟩, hid⟩)
      · exact Or.inl (Or.inl hx)
      · exact Or.inl (Or.inr ⟨e, ⟨he, hc⟩, hid⟩)
      · exact Or.inr ⟨e, ⟨he, hc⟩, hid⟩

/-! ## Claim C4 -/

/-- Concrete attempts for the counterexamples: two attempts at the same
course, with distinct ids and terms. -/
def cxAttemptA : Enrollment :=
  ⟨1, "M101", "Math", 3, 10, some "2023/2024", "FIRST", some ⟨"C", "APPROVED", 70⟩⟩

/-- Second attempt at the same course, one session later. -/
def cxAttemptB : Enrollment :=
  ⟨2, "M101", "Math", 3, 11, some "2024/2025", "FIRST", some ⟨"A", "APPROVED", 90⟩⟩

/-- Concrete grading scale: A worth 4, C worth 2. -/
def cxScale : List GradingSetting := [⟨"A", 4⟩, ⟨"C", 2⟩]

/-- C4, counterexample: `"best"` is a policy value outside
`{ALL, LATEST, BEST}`, yet `select_enrollments_for_gpa` does not return the
identifiers of every attempt for it — the source normalizes the policy with
`.upper()` first, so `"best"` behaves as `BEST` and drops an attempt. -/
theorem claim_C4_counterexample :
    ("best" ≠ "ALL" ∧ "best" ≠ "LATEST" ∧ "best" ≠ "BEST") ∧
    select_enrollments_for_gpa cxScale [cxAttemptA, cxAttemptB] (some "best") ≠
      ([cxAttemptA, cxAttemptB].map (·.id)).toFinset := by
  constructor
  · refine ⟨by decide, by decide, by decide⟩
  · decide

/-- C4, amended: policy values are first normalized by
`(repeat_policy or 'ALL').upper()`; for every policy value whose
normalization is neither `LATEST` nor `BEST` (this includes `ALL`, `None`,
the empty string, and every unknown value), `select_enrollments_for_gpa`
returns the identifiers of every attempt in the input. -/
theorem claim_C4 (scale : List GradingSetting) (enrollments : List Enrollment)
    (repeat_policy : Option String)
    (h1 : normalize_repeat_policy repeat_policy ≠ "LATEST")
    (h2 : normalize_repeat_policy repeat_policy ≠ "BEST") :
    select_enrollments_for_gpa scale enrollments repeat_policy =
      (enrollments.map (·.id)).toFinset := by
  simp only [select_enrollments_for_gpa]
  by_cases hall : normalize_repeat_policy repeat_policy = "ALL"
  · rw [if_pos hall]
  · rw [if_neg hall, foldl_selectStep_unknown scale enrollments _ h1 h2,
      Finset.empty_union]
    have hfilter : enrollments.filter
        (fun e => decide (e.course_code ∈ pyDictKeys (enrollments.map (·.course_code)))) =
        enrollments := by
      rw [List.filter_eq_self]
      intro e he
      simp only [decide_eq_true_eq, pyDictKeys_mem]
      exact List.mem_map_of_mem _ he
    rw [hfilter]

/-- C4, witness: the amended theorem applied to an unknown policy value. -/
theorem claim_C4_witness :
    normalize_repeat_policy (some "WEIRD") ≠ "LATEST" ∧
    normalize_repeat_policy (some "WEIRD") ≠ "BEST" ∧
    select_enrollments_for_gpa cxScale [cxAttemptA, cxAttemptB] (some "WEIRD") =
      ([cxAttemptA, cxAttemptB].map (·.id)).toFinset :=
  ⟨by decide, by decide,
   claim_C4 cxScale [cxAttemptA, cxAttemptB] (some "WEIRD") (by decide) (by decide)⟩

/-! ## Claim C5 -/

lemma filter_single_course (c : String) (es : List Enrollment)
    (hsame : ∀ e ∈ es, e.course_code = c) :
    es.filter (fun e => e.course_code == c) = es := by
  rw [List.filter_eq_self]
  intro e he
  simp only [beq_iff_eq]
  exact hsame e he

lemma select_single_course (scale : List GradingSetting) (c : String)
    (a : Enrollment) (rest : List Enrollment)
    (hsame : ∀ e ∈ a :: rest, e.course_code = c) (p : String)
    (hnorm : normalize_repeat_policy (some p) = p) (hnA : p ≠ "ALL") :
    select_enrollments_for_gpa scale (a :: rest) (some p) =
      selectStep scale (a :: rest) p ∅ c := by
  simp only [select_enrollments_for_gpa, hnorm, if_neg hnA]
  have hkeys : pyDictKeys ((a :: rest).map (·.course_code)) = [c] := by
    refine pyDictKeys_const _ c (by simp) ?_
    intro x hx
    rcases List.mem_map.1 hx with ⟨e, he, rfl⟩
    exact hsame e he
  rw [hkeys]
  rfl

/-- C5: for a non-empty list of attempts all at one course code, policy
`LATEST` selects exactly one attempt whose term-ordering key (year from the
session label, then semester ordinal, lexicographically) is ≥ every other
attempt's key, and policy `BEST` selects exactly one attempt whose
(grade-point, term-ordering key) pair is lexicographically maximal. -/
theorem claim_C5 (scale : List GradingSetting) (c : String) (a : Enrollment)
    (rest : List Enrollment) (hsame : ∀ e ∈ a :: rest, e.course_code = c) :
    (∃ b ∈ a :: rest,
        select_enrollments_for_gpa scale (a :: rest) (some "LATEST") = {b.id} ∧
        ∀ e ∈ a :: rest, term_sort_key e ≤ term_sort_key b) ∧
    (∃ b ∈ a :: rest,
        select_enrollments_for_gpa scale (a :: rest) (some "BEST") = {b.id} ∧
        ∀ e ∈ a :: rest, best_sort_key scale e ≤ best_sort_key scale b) := by
  have hfilter := filter_single_course c (a :: rest) hsame
  constructor
  · refine ⟨pyMax term_sort_key a rest, pyMax_mem _ _ _, ?_, pyMax_le _ _ _⟩
    rw [select_single_course scale c a rest hsame "LATEST" (by decide) (by decide)]
    simp only [selectStep, hfilter]
    rfl
  · refine ⟨pyMax (best_sort_key scale) a rest, pyMax_mem _ _ _, ?_, pyMax_le _ _ _⟩
    rw [select_single_course scale c a rest hsame "BEST" (by decide) (by decide)]
    simp only [selectStep, hfilter]
    rfl

/-- C5, witness: both parts of the theorem at two concrete attempts. -/
theorem claim_C5_witness :
    (∃ b ∈ [cxAttemptA, cxAttemptB],
        select_enrollments_for_gpa cxScale [cxAttemptA, cxAttemptB] (some "LATEST") = {b.id} ∧
        ∀ e ∈ [cxAttemptA, cxAttemptB], term_sort_key e ≤ term_sort_key b) ∧
    (∃ b ∈ [cxAttemptA, cxAttemptB],
        select_enrollments_for_gpa cxScale [cxAttemptA, cxAttemptB] (some "BEST") = {b.id} ∧
        ∀ e ∈ [cxAttemptA, cxAttemptB], best_sort_key cxScale e ≤ best_sort_key cxScale b) :=
  claim_C5 cxScale "M101" cxAttemptA [cxAttemptB] (by decide)

/-! ## Claim C6 -/

/-- A 3-unit enrollment whose grade exists but is not APPROVED. -/
def cxGated : Enrollment :=
  ⟨1, "M101", "Math", 3, 10, some "2023/2024", "FIRST", some ⟨"A", "DRAFT", 90⟩⟩

/-- The same enrollment with no grade row at all. -/
def cxNoGrade : Enrollment :=
  ⟨1, "M101", "Math", 3, 10, some "2023/2024", "FIRST", none⟩

/-- Approval-gating policy: count all attempts, approved grades only. -/
def cxPolGate : AcademicPolicySettings := ⟨"ALL", true⟩

/-- C6, counterexample: with `require_approved_for_metrics` set, an
enrollment whose grade exists but is unapproved is NOT treated like the
missing-grade branch — the loop `continue`s before touching the unit
accumulators, so its 3 units are dropped (`total_units_attempted = 0`),
whereas the same enrollment with no grade at all contributes its units
(`total_units_attempted = 3`). -/
theorem claim_C6_counterexample :
    (update_academic_metrics cxScale cxPolGate [cxGated]).total_units_attempted = 0 ∧
    (update_academic_metrics cxScale cxPolGate [cxNoGrade]).total_units_attempted = 3 ∧
    (update_academic_metrics cxScale cxPolGate [cxGated]).total_units_attempted ≠
      (update_academic_metrics cxScale cxPolGate [cxNoGrade]).total_units_attempted := by
  refine ⟨by decide, by decide, by decide⟩

/-- C6, amended: in the metrics loop, when `require_approved_for_metrics`
is set and the enrollment's grade exists but its approval status is not
approved, the enrollment is skipped entirely (`continue`): it contributes
neither grade points nor units nor a session — unlike the missing-grade /
missing-scale-entry branch, which contributes no points but still
accumulates the units of counted enrollments. -/
theorem claim_C6 (scale : List GradingSetting) (pol : AcademicPolicySettings)
    (counted : Finset ℕ) (acc : MetricsAcc) (e : Enrollment) (g : Grade)
    (hra : pol.require_approved_for_metrics = true)
    (hg : e.grade = some g) (hst : g.status ≠ "APPROVED") :
    metricsStep scale pol counted acc e = acc ∧
    ∀ e2 : Enrollment, e2.grade = none → e2.id ∈ counted →
      metricsStep scale pol counted acc e2 =
        { acc with
          total_units := acc.total_units + e2.units
          sessions_set := insert e2.session_id acc.sessions_set } := by
  constructor
  · simp [metricsStep, hg, hra, hst]
  · intro e2 h1 h2
    simp [metricsStep, h1, h2]

/-- C6, witness: the amended theorem at the concrete gated and no-grade
enrollments. -/
theorem claim_C6_witness :
    metricsStep cxScale cxPolGate {1} ⟨0, 0, 0, ∅⟩ cxGated = ⟨0, 0, 0, ∅⟩ ∧
    metricsStep cxScale cxPolGate {1} ⟨0, 0, 0, ∅⟩ cxNoGrade = ⟨0, 3, 0, {10}⟩ := by
  have h := claim_C6 cxScale cxPolGate {1} ⟨0, 0, 0, ∅⟩ cxGated ⟨"A", "DRAFT", 90⟩
    (by decide) rfl (by decide)
  refine ⟨h.1, ?_⟩
  rw [h.2 cxNoGrade rfl (by decide)]
  decide

/-! ## Claim C9 -/

/-- C9, counterexample: with two missing prerequisites declared in the
order `["CSC201", "CSC101"]`, the reason string joins the missing codes in
declaration order, not sorted order. -/
theorem claim_C9_counterexample :
    (check_prerequisites [] false [] ["CSC201", "CSC101"]).1 = false ∧
    (check_prerequisites [] false [] ["CSC201", "CSC101"]).2 =
      some "Missing prerequisites: CSC201, CSC101" ∧
    (check_prerequisites [] false [] ["CSC201", "CSC101"]).2 ≠
      some "Missing prerequisites: CSC101, CSC201" := by
  refine ⟨by decide, by decide, by decide⟩

/-- C9, amended: `check_prerequisites` returns ok=true iff every declared
prerequisite course satisfies the pass predicate for the student; otherwise
it returns ok=false with a reason string naming exactly the missing
prerequisite course codes, comma-joined in declaration (query) order — the
source does not sort them. -/
theorem claim_C9 (scale : List GradingSetting) (require_approved : Bool)
    (enrollments : List Enrollment) (prereq_codes : List String) :
    ((check_prerequisites scale require_approved enrollments prereq_codes).1 = true ↔
      ∀ c ∈ prereq_codes, student_passed_course scale require_approved enrollments c = true) ∧
    ((check_prerequisites scale require_approved enrollments prereq_codes).1 = true →
      (check_prerequisites scale require_approved enrollments prereq_codes).2 = none) ∧
    ((check_prerequisites scale require_approved enrollments prereq_codes).1 = false →
      (check_prerequisites scale require_approved enrollments prereq_codes).2 =
        some ("Missing prerequisites: " ++ String.intercalate ", "
          (prereq_codes.filter
            (fun c => ¬ student_passed_course scale require_approved enrollments c)))) := by
  by_cases hm : prereq_codes.filter
      (fun c => ¬ student_passed_course scale require_approved enrollments c) = []
  · have hEq : check_prerequisites scale require_approved enrollments prereq_codes =
        (true, none) := by
      simp only [check_prerequisites]
      rw [hm]
      simp
    have hall : ∀ c ∈ prereq_codes,
        student_passed_course scale require_approved enrollments c = true := by
      intro c hc
      by_contra hnc
      have hmem : c ∈ prereq_codes.filter
          (fun c => ¬ student_passed_course scale require_approved enrollments c) := by
        rw [List.mem_filter]
        exact ⟨hc, by simp [hnc]⟩
      rw [hm] at hmem
      simp at hmem
    rw [hEq]
    exact ⟨⟨fun _ => hall, fun _ => rfl⟩, fun _ => rfl, fun hf => absurd hf (by simp)⟩
  · have hEq : check_prerequisites scale require_approved enrollments prereq_codes =
        (false, some ("Missing prerequisites: " ++ String.intercalate ", "
          (prereq_codes.filter
            (fun c => ¬ student_passed_course scale require_approved enrollments c)))) := by
      simp only [check_prerequisites]
      rw [if_pos hm]
    obtain ⟨c, hc⟩ : ∃ c, c ∈ prereq_codes.filter
        (fun c => ¬ student_passed_course scale require_approved enrollments c) := by
      rcases h : prereq_codes.filter
          (fun c => ¬ student_passed_course scale require_approved enrollments c) with _ | ⟨c, cs⟩
      · exact absurd h hm
      · exact ⟨c, List.mem_cons_self _ _⟩
    have hpc := List.mem_filter.1 hc
    have hnotpass : ¬ (student_passed_course scale require_approved enrollments c = true) :=
      of_decide_eq_true hpc.2
    rw [hEq]
    refine ⟨⟨fun ht => absurd ht (by simp), fun hall => ?_⟩,
      fun ht => absurd ht (by simp), fun _ => rfl⟩
    exact absurd (hall c hpc.1) hnotpass

/-- C9, witness: the amended theorem at a concrete passing configuration
and at the concrete missing configuration of the counterexample. -/
theorem claim_C9_witness :
    (check_prerequisites cxScale false [cxAttemptB] ["M101"]).1 = true ∧
    (check_prerequisites cxScale false [cxAttemptB] ["M101"]).2 = none := by
  have h := claim_C9 cxScale false [cxAttemptB] ["M101"]
  have hok : (check_prerequisites cxScale false [cxAttemptB] ["M101"]).1 = true :=
    h.1.mpr (by decide)
  exact ⟨hok, h.2.1 hok⟩

/-! ## Claim C10 -/

lemma student_passed_eq_passed (scale : List GradingSetting) (require_approved : Bool)
    (enrollments : List Enrollment) (course_code : String) :
    student_passed_course scale require_approved enrollments course_code =
      passed_course scale require_approved enrollments course_code := by
  unfold student_passed_course passed_course
  congr 1
  funext e
  rcases hg : e.grade with _ | g
  · simp [grade_point_of, hg]
  · simp only [grade_point_of, hg]
    by_cases hb : g.grade = ""
    · simp [hb]
    · by_cases hgate : require_approved ∧ g.status ≠ "APPROVED"
      · simp [hb, hgate]
      · rcases hf : GradingSettings_first scale g.grade with _ | gs
        · simp [hb, hgate, hf]
        · simp [hb, hgate, hf]

lemma student_passed_iff (scale : List GradingSetting) (require_approved : Bool)
    (enrollments : List Enrollment) (course_code : String) :
    student_passed_course scale require_approved enrollments course_code = true ↔
      ∃ e ∈ enrollments, e.course_code = course_code ∧
        ∃ gp, grade_point_of scale require_approved e = some gp ∧ 0 < gp := by
  rw [student_passed_eq_passed]
  unfold passed_course
  rw [List.any_eq_true]
  constructor
  · rintro ⟨e, he, hbody⟩
    have hmem := List.mem_filter.1 he
    refine ⟨e, hmem.1, by simpa using hmem.2, ?_⟩
    rcases hgp : grade_point_of scale require_approved e with _ | gp
    · rw [hgp] at hbody
      simp at hbody
    · rw [hgp] at hbody
      exact ⟨gp, rfl, by simpa using hbody⟩
  · rintro ⟨e, he, hcode, gp, hgp, hpos⟩
    refine ⟨e, List.mem_filter.2 ⟨he, by simp [hcode]⟩, ?_⟩
    rw [hgp]
    simpa using hpos

/-- C10: the course-level pass predicate of `academics/eligibility.py` and
the one of `academics/graduation.py` are the same function; it is
existential over all attempts — true iff some enrollment of the student in
that course resolves (under approval gating) to a grade point strictly
greater than zero — and it takes no repeat-policy input; in particular,
appending later (e.g. failing) attempts never revokes a pass. -/
theorem claim_C10 (scale : List GradingSetting) (require_approved : Bool)
    (enrollments : List Enrollment) (course_code : String) :
    (student_passed_course scale require_approved enrollments course_code =
      passed_course scale require_approved enrollments course_code) ∧
    (student_passed_course scale require_approved enrollments course_code = true ↔
      ∃ e ∈ enrollments, e.course_code = course_code ∧
        ∃ gp, grade_point_of scale require_approved e = some gp ∧ 0 < gp) ∧
    (∀ later : List Enrollment,
      student_passed_course scale require_approved enrollments course_code = true →
      student_passed_course scale require_approved (enrollments ++ later) course_code = true) := by
  refine ⟨student_passed_eq_passed _ _ _ _, student_passed_iff _ _ _ _, ?_⟩
  intro later ht
  obtain ⟨e, he, hcode, gp, hgp, hpos⟩ := (student_passed_iff _ _ _ _).1 ht
  exact (student_passed_iff _ _ _ _).2
    ⟨e, List.mem_append_left _ he, hcode, gp, hgp, hpos⟩

/-- C10, witness: the theorem at a concrete passing attempt, with a later
gradeless attempt appended. -/
theorem claim_C10_witness :
    (student_passed_course cxScale false [cxAttemptA] "M101" =
      passed_course cxScale false [cxAttemptA] "M101") ∧
    student_passed_course cxScale false ([cxAttemptA] ++ [cxNoGrade]) "M101" = true := by
  have h := claim_C10 cxScale false [cxAttemptA] "M101"
  exact ⟨h.1, h.2.2 [cxNoGrade] (by decide)⟩

/-! ## Claim C7 -/

lemma select_all (scale : List GradingSetting) (es : List Enrollment) :
    select_enrollments_for_gpa scale es (some "ALL") = (es.map (·.id)).toFinset := by
  have h : normalize_repeat_policy (some "ALL") = "ALL" := by decide
  simp only [select_enrollments_for_gpa, h]
  simp

lemma grade_point_of_isSome (scale : List GradingSetting) (ra : Bool)
    (e : Enrollment) (h : (grade_point_of scale ra e).isSome) :
    ∃ g gs, e.grade = some g ∧ g.grade ≠ "" ∧ ¬ (ra ∧ g.status ≠ "APPROVED") ∧
      GradingSettings_first scale g.grade = some gs ∧
      grade_point_of scale ra e = some gs.grade_point := by
  rcases hg : e.grade with _ | g
  · exfalso
    have hval : grade_point_of scale ra e = none := by
      unfold grade_point_of
      rw [hg]
    rw [hval] at h
    simp at h
  · have hval : grade_point_of scale ra e =
        (if g.grade = "" then none
         else if ra ∧ g.status ≠ "APPROVED" then none
         else (GradingSettings_first scale g.grade).map (·.grade_point)) := by
      unfold grade_point_of
      rw [hg]
    by_cases hb : g.grade = ""
    · rw [hval, if_pos hb] at h
      simp at h
    · by_cases hgate : ra ∧ g.status ≠ "APPROVED"
      · rw [hval, if_neg hb, if_pos hgate] at h
        simp at h
      · rcases hf : GradingSettings_first scale g.grade with _ | gs
        · rw [hval, if_neg hb, if_neg hgate, hf] at h
          simp at h
        · refine ⟨g, gs, rfl, hb, hgate, hf, ?_⟩
          rw [hval, if_neg hb, if_neg hgate, hf]
          rfl

lemma metrics_compute_fold (scale : List GradingSetting)
    (pol : AcademicPolicySettings) (counted : Finset ℕ) :
    ∀ (es : List Enrollment),
      (∀ e ∈ es, (grade_point_of scale pol.require_approved_for_metrics e).isSome ∧
        e.id ∈ counted) →
      ∀ (acc : MetricsAcc),
        ((es.foldl (metricsStep scale pol counted) acc).total_grade_points,
         (es.foldl (metricsStep scale pol counted) acc).total_units) =
          es.foldl (compute_step scale pol.require_approved_for_metrics)
            (acc.total_grade_points, acc.total_units) := by
  intro es
  induction es with
  | nil => intro _ acc; rfl
  | cons e es ih =>
    intro h acc
    have he := h e (List.mem_cons_self _ _)
    obtain ⟨g, gs, hg, hb, hgate, hf, hgp⟩ := grade_point_of_isSome _ _ _ he.1
    rw [List.foldl_cons, List.foldl_cons,
      ih (fun e2 he2 => h e2 (List.mem_cons_of_mem _ he2))]
    congr 1
    simp only [metricsStep, compute_step, hg, hgate, hf, he.2, hgp, if_pos, if_true,
      if_neg, not_false_iff]
    simp [he.2, hgate]
    ring

/-- A program carrying no curriculum and no thresholds, for the C7
counterexample. -/
def cxProgram : Program := ⟨"BSC", 0, [], []⟩

/-- C7, counterexample: with active policy LATEST and two graded attempts
at one course, the graduation audit reports cgpa 3.0 over 6 units (it
iterates all enrollments, no attempt selection), while the
repeat-policy-aware metrics computation reports cgpa 4.0 over 3 units
(counting only the latest attempt) — so the audit is not computed via the
repeat-policy-aware aggregation. -/
theorem claim_C7_counterexample :
    ((audit_student_graduation cxScale ⟨"LATEST", false⟩ (some cxProgram)
        [cxAttemptA, cxAttemptB]).cgpa,
     (audit_student_graduation cxScale ⟨"LATEST", false⟩ (some cxProgram)
        [cxAttemptA, cxAttemptB]).total_units_earned) ≠
    ((update_academic_metrics cxScale ⟨"LATEST", false⟩
        [cxAttemptA, cxAttemptB]).current_cgpa,
     (update_academic_metrics cxScale ⟨"LATEST", false⟩
        [cxAttemptA, cxAttemptB]).total_units_attempted) := by
  decide

/-- C7, amended: the graduation audit's cumulative average and total units
come from `compute_cgpa_for_program`, which iterates every enrollment with
no repeat-policy attempt selection; it agrees with the repeat-policy-aware
metrics computation only in the selection-free case — under active policy
ALL, when every enrollment resolves a grade point under the approval
gating, the audit's cgpa and total units equal those of
`update_academic_metrics`.  (Under LATEST/BEST the two can differ, see the
counterexample.) -/
theorem claim_C7 (scale : List GradingSetting) (pol : AcademicPolicySettings)
    (program : Program) (enrollments : List Enrollment)
    (hall : pol.repeat_policy = "ALL")
    (hres : ∀ e ∈ enrollments,
      (grade_point_of scale pol.require_approved_for_metrics e).isSome) :
    (audit_student_graduation scale pol (some program) enrollments).cgpa =
      (update_academic_metrics scale pol enrollments).current_cgpa ∧
    (audit_student_graduation scale pol (some program) enrollments).total_units_earned =
      (update_academic_metrics scale pol enrollments).total_units_attempted := by
  have haud1 : (audit_student_graduation scale pol (some program) enrollments).cgpa =
      (compute_cgpa_for_program scale pol.require_approved_for_metrics enrollments).1 := rfl
  have haud2 : (audit_student_graduation scale pol (some program) enrollments).total_units_earned =
      (compute_cgpa_for_program scale pol.require_approved_for_metrics enrollments).2 := rfl
  have hcnt : ∀ e ∈ enrollments, e.id ∈ (enrollments.map (·.id)).toFinset :=
    fun e he => List.mem_toFinset.2 (List.mem_map_of_mem _ he)
  have hsel : select_enrollments_for_gpa scale enrollments (some pol.repeat_policy) =
      (enrollments.map (·.id)).toFinset := by
    rw [hall]
    exact select_all scale enrollments
  have hupd : update_academic_metrics scale pol enrollments =
      (let acc := enrollments.foldl
        (metricsStep scale pol ((enrollments.map (·.id)).toFinset)) ⟨0, 0, 0, ∅⟩
       { current_cgpa :=
           if acc.total_units > 0 then pyRound2 (acc.total_grade_points / acc.total_units)
           else 0
         total_units_attempted := acc.total_units
         total_units_passed := acc.passed_units
         total_sessions_completed := acc.sessions_set.card }) := by
    simp only [update_academic_metrics, hsel]
  have hfold := metrics_compute_fold scale pol ((enrollments.map (·.id)).toFinset)
    enrollments (fun e he => ⟨hres e he, hcnt e he⟩) ⟨0, 0, 0, ∅⟩
  have h1 : (enrollments.foldl
      (metricsStep scale pol ((enrollments.map (·.id)).toFinset)) ⟨0, 0, 0, ∅⟩).total_grade_points =
      (enrollments.foldl (compute_step scale pol.require_approved_for_metrics) (0, 0)).1 :=
    congrArg Prod.fst hfold
  have h2 : (enrollments.foldl
      (metricsStep scale pol ((enrollments.map (·.id)).toFinset)) ⟨0, 0, 0, ∅⟩).total_units =
      (enrollments.foldl (compute_step scale pol.require_approved_for_metrics) (0, 0)).2 :=
    congrArg Prod.snd hfold
  rw [haud1, haud2, hupd]
  simp only [compute_cgpa_for_program]
  rw [h1, h2]
  rcases hz : (enrollments.foldl (compute_step scale pol.require_approved_for_metrics) (0, 0)).2 with _ | n
  · simp
  · constructor
    · rw [if_neg (Nat.succ_ne_zero n), if_pos (Nat.succ_pos n)]
    · rw [if_neg (Nat.succ_ne_zero n)]

/-- C7, witness: the amended theorem at a concrete two-attempt history
under policy ALL. -/
theorem claim_C7_witness :
    (audit_student_graduation cxScale ⟨"ALL", false⟩ (some cxProgram)
        [cxAttemptA, cxAttemptB]).cgpa =
      (update_academic_metrics cxScale ⟨"ALL", false⟩
        [cxAttemptA, cxAttemptB]).current_cgpa ∧
    (audit_student_graduation cxScale ⟨"ALL", false⟩ (some cxProgram)
        [cxAttemptA, cxAttemptB]).total_units_earned =
      (update_academic_metrics cxScale ⟨"ALL", false⟩
        [cxAttemptA, cxAttemptB]).total_units_attempted :=
  claim_C7 cxScale ⟨"ALL", false⟩ cxProgram [cxAttemptA, cxAttemptB] rfl (by decide)

/-! ## Claim C8 -/

lemma pySortedSet_eq_nil (l : List String) : pySortedSet l = [] ↔ l = [] := by
  constructor
  · intro h
    have hperm := List.mergeSort_perm (pyDictKeys l) (fun a b => decide (a ≤ b))
    rw [pySortedSet] at h
    rw [h] at hperm
    exact (pyDictKeys_eq_nil l).1 hperm.symm.eq_nil
  · rintro rfl
    simp [pySortedSet, pyDictKeys]

lemma find_first_ge {α : Type} (key : α → ℚ) (c : ℚ) :
    ∀ (l : List α), l.Pairwise (fun a b => key b ≤ key a) →
      (∃ t ∈ l, key t ≤ c) →
      ∃ t ∈ l, l.find? (fun t => decide (c ≥ key t)) = some t ∧ key t ≤ c ∧
        ∀ t2 ∈ l, key t2 ≤ c → key t2 ≤ key t := by
  intro l
  induction l with
  | nil =>
    rintro _ ⟨t, ht, _⟩
    simp at ht
  | cons hd tl ih =>
    intro hsort hex
    by_cases hh : key hd ≤ c
    · refine ⟨hd, List.mem_cons_self _ _, ?_, hh, ?_⟩
      · exact List.find?_cons_of_pos _ (by simpa [ge_iff_le] using hh)
      · intro t2 ht2 _
        rcases List.mem_cons.1 ht2 with rfl | ht2
        · exact le_rfl
        · exact (List.pairwise_cons.1 hsort).1 t2 ht2
    · have hex2 : ∃ t ∈ tl, key t ≤ c := by
        rcases hex with ⟨t, ht, htc⟩
        rcases List.mem_cons.1 ht with rfl | ht
        · exact absurd htc hh
        · exact ⟨t, ht, htc⟩
      obtain ⟨t, ht, hfind, htc, hmax⟩ := ih (List.pairwise_cons.1 hsort).2 hex2
      refine ⟨t, List.mem_cons_of_mem _ ht, ?_, htc, ?_⟩
      · rw [List.find?_cons_of_neg _ (by simpa [ge_iff_le] using hh), hfind]
      · intro t2 ht2 htc2
        rcases List.mem_cons.1 ht2 with rfl | ht2
        · exact absurd htc2 hh
        · exact hmax t2 ht2 htc2

lemma classify_spec_thresholds (program : Program) (cgpa : ℚ)
    (hne : program.classification_thresholds ≠ [])
    (hsort : program.classification_thresholds.Pairwise
      (fun a b => b.min_cgpa ≤ a.min_cgpa))
    (hex : ∃ t ∈ program.classification_thresholds, t.min_cgpa ≤ cgpa) :
    ∃ t ∈ program.classification_thresholds, classify program cgpa = t.label ∧
      t.min_cgpa ≤ cgpa ∧ ∀ t2 ∈ program.classification_thresholds,
        t2.min_cgpa ≤ cgpa → t2.min_cgpa ≤ t.min_cgpa := by
  obtain ⟨t, ht, hfind, htc, hmax⟩ :=
    find_first_ge (fun t => t.min_cgpa) cgpa program.classification_thresholds hsort hex
  refine ⟨t, ht, ?_, htc, hmax⟩
  have hfind2 : program.classification_thresholds.find?
      (fun t => decide (cgpa ≥ t.min_cgpa)) = some t := hfind
  unfold classify
  rw [if_neg hne, hfind2]

lemma classify_spec_default (program : Program) (cgpa : ℚ)
    (he : program.classification_thresholds = []) (hc : 0 ≤ cgpa) :
    ∃ t ∈ default_ladder program.classification_scheme,
      classify program cgpa = t.1 ∧ t.2 ≤ cgpa ∧
      ∀ t2 ∈ default_ladder program.classification_scheme,
        t2.2 ≤ cgpa → t2.2 ≤ t.2 := by
  have hsort : (default_ladder program.classification_scheme).Pairwise
      (fun a b => b.2 ≤ a.2) := by
    unfold default_ladder
    split
    · norm_num [List.pairwise_cons]
    · norm_num [List.pairwise_cons]
  have hex : ∃ t ∈ default_ladder program.classification_scheme, t.2 ≤ cgpa := by
    unfold default_ladder
    split
    · exact ⟨("Fail", 0), by norm_num, hc⟩
    · exact ⟨("Fail", 0), by norm_num, hc⟩
  obtain ⟨t, ht, hfind, htc, hmax⟩ :=
    find_first_ge (fun t => t.2) cgpa (default_ladder program.classification_scheme) hsort hex
  refine ⟨t, ht, ?_, htc, hmax⟩
  have hfind2 : (default_ladder program.classification_scheme).find?
      (fun t => decide (cgpa ≥ t.2)) = some t := hfind
  unfold classify
  rw [if_pos he, hfind2]

/-- C8: graduation audit decision rule.  With the program's classification
thresholds in their declared descending `min_cgpa` order (the model's
`ordering` guarantee): (a) `eligible` is true iff there are no missing
compulsory courses and the total counted units reach the program minimum
(a configured minimum of 0 means no requirement); (b) `classification` is
`none` whenever `eligible` is false; (c) when eligible with configured
thresholds and some threshold at or below the computed average, the
classification is the label of a matching threshold that dominates every
other matching threshold — i.e. the first match in descending order;
(d) when eligible with no configured thresholds and a nonnegative average,
the same holds over the scheme's default ladder. -/
theorem claim_C8 (scale : List GradingSetting) (pol : AcademicPolicySettings)
    (program : Program) (enrollments : List Enrollment)
    (hsort : program.classification_thresholds.Pairwise
      (fun a b => b.min_cgpa ≤ a.min_cgpa)) :
    ((audit_student_graduation scale pol (some program) enrollments).eligible = true ↔
      ((audit_student_graduation scale pol (some program) enrollments).missing_compulsory_courses = [] ∧
       (program.min_units_to_graduate = 0 ∨
        program.min_units_to_graduate ≤
          (audit_student_graduation scale pol (some program) enrollments).total_units_earned))) ∧
    ((audit_student_graduation scale pol (some program) enrollments).eligible = false →
      (audit_student_graduation scale pol (some program) enrollments).classification = none) ∧
    ((audit_student_graduation scale pol (some program) enrollments).eligible = true →
      program.classification_thresholds ≠ [] →
      (∃ t ∈ program.classification_thresholds,
        t.min_cgpa ≤ (audit_student_graduation scale pol (some program) enrollments).cgpa) →
      ∃ t ∈ program.classification_thresholds,
        (audit_student_graduation scale pol (some program) enrollments).classification =
          some t.label ∧
        t.min_cgpa ≤ (audit_student_graduation scale pol (some program) enrollments).cgpa ∧
        ∀ t2 ∈ program.classification_thresholds,
          t2.min_cgpa ≤ (audit_student_graduation scale pol (some program) enrollments).cgpa →
          t2.min_cgpa ≤ t.min_cgpa) ∧
    ((audit_student_graduation scale pol (some program) enrollments).eligible = true →
      program.classification_thresholds = [] →
      0 ≤ (audit_student_graduation scale pol (some program) enrollments).cgpa →
      ∃ t ∈ default_ladder program.classification_scheme,
        (audit_student_graduation scale pol (some program) enrollments).classification =
          some t.1 ∧
        t.2 ≤ (audit_student_graduation scale pol (some program) enrollments).cgpa ∧
        ∀ t2 ∈ default_ladder program.classification_scheme,
          t2.2 ≤ (audit_student_graduation scale pol (some program) enrollments).cgpa →
          t2.2 ≤ t.2) := by
  set ra := pol.require_approved_for_metrics with hra
  set cu := compute_cgpa_for_program scale ra enrollments with hcu
  set missing := (program.curriculum_courses.filter (·.is_compulsory)).filterMap
    (fun cc =>
      if passed_course scale ra enrollments cc.course_code then none
      else some cc.course_code) with hmiss
  have hel : (audit_student_graduation scale pol (some program) enrollments).eligible =
      decide (missing = [] ∧ (program.min_units_to_graduate = 0 ∨
        ¬ cu.2 < program.min_units_to_graduate)) := rfl
  have hclass : (audit_student_graduation scale pol (some program) enrollments).classification =
      if missing = [] ∧ (program.min_units_to_graduate = 0 ∨
        ¬ cu.2 < program.min_units_to_graduate)
      then some (classify program cu.1) else none := rfl
  have hmc : (audit_student_graduation scale pol (some program) enrollments).missing_compulsory_courses =
      pySortedSet missing := rfl
  have hcg : (audit_student_graduation scale pol (some program) enrollments).cgpa = cu.1 := rfl
  have hun : (audit_student_graduation scale pol (some program) enrollments).total_units_earned =
      cu.2 := rfl
  refine ⟨?_, ?_, ?_, ?_⟩
  · rw [hel, hmc, hun, decide_eq_true_eq]
    constructor
    · rintro ⟨h1, h2⟩
      exact ⟨(pySortedSet_eq_nil missing).2 h1, h2.imp id Nat.le_of_not_lt⟩
    · rintro ⟨h1, h2⟩
      exact ⟨(pySortedSet_eq_nil missing).1 h1, h2.imp id (fun h => not_lt.2 h)⟩
  · intro hf
    rw [hel] at hf
    rw [hclass, if_neg (of_decide_eq_false hf)]
  · intro ht hne hex
    rw [hel] at ht
    rw [hcg] at hex
    obtain ⟨t, htmem, hclassify, htc, hmax⟩ :=
      classify_spec_thresholds program cu.1 hne hsort hex
    refine ⟨t, htmem, ?_, by rw [hcg]; exact htc, ?_⟩
    · rw [hclass, if_pos (of_decide_eq_true ht), hclassify]
    · intro t2 ht2 htc2
      rw [hcg] at htc2
      exact hmax t2 ht2 htc2
  · intro ht he hc
    rw [hel] at ht
    rw [hcg] at hc
    obtain ⟨t, htmem, hclassify, htc, hmax⟩ := classify_spec_default program cu.1 he hc
    refine ⟨t, htmem, ?_, by rw [hcg]; exact htc, ?_⟩
    · rw [hclass, if_pos (of_decide_eq_true ht), hclassify]
    · intro t2 ht2 htc2
      rw [hcg] at htc2
      exact hmax t2 ht2 htc2

/-- Program for the C8 witness: BSc scheme, 3 minimum units, thresholds
First Class ≥ 3.9, Fail ≥ 0 (descending), one compulsory course M101. -/
def cxWitProgram : Program :=
  ⟨"BSC", 3, [⟨"First Class", 39 / 10⟩, ⟨"Fail", 0⟩], [⟨"M101", true⟩]⟩

/-- C8, witness: the theorem at a concrete eligible student (one approved
A grade, 3 units, cgpa 4.0): eligible, classified by a dominating matching
threshold. -/
theorem claim_C8_witness :
    (audit_student_graduation cxScale ⟨"ALL", false⟩ (some cxWitProgram)
      [cxAttemptB]).eligible = true ∧
    ∃ t ∈ cxWitProgram.classification_thresholds,
      (audit_student_graduation cxScale ⟨"ALL", false⟩ (some cxWitProgram)
        [cxAttemptB]).classification = some t.label ∧
      t.min_cgpa ≤ (audit_student_graduation cxScale ⟨"ALL", false⟩ (some cxWitProgram)
        [cxAttemptB]).cgpa ∧
      ∀ t2 ∈ cxWitProgram.classification_thresholds,
        t2.min_cgpa ≤ (audit_student_graduation cxScale ⟨"ALL", false⟩ (some cxWitProgram)
          [cxAttemptB]).cgpa → t2.min_cgpa ≤ t.min_cgpa := by
  have h := claim_C8 cxScale ⟨"ALL", false⟩ cxWitProgram [cxAttemptB]
    (by norm_num [cxWitProgram, List.pairwise_cons])
  have ht : (audit_student_graduation cxScale ⟨"ALL", false⟩ (some cxWitProgram)
      [cxAttemptB]).eligible = true := by decide
  exact ⟨ht, h.2.2.1 ht (by decide) (by decide)⟩

/-! ## Claim C3 -/

lemma serObj_eq_map (l : List (String × Json)) :
    serObj l = l.map (fun kv => (kv.1, canonical_json kv.2)) := by
  induction l with
  | nil => simp [serObj]
  | cons kv kvs ih =>
    cases kv with
    | mk k v => simp [serObj, ih]

lemma canonical_json_obj (kvs : List (String × Json)) :
    canonical_json (.obj kvs) =
      "\x7b" ++ String.intercalate ","
        (((serObj kvs).mergeSort pairLe).map
          (fun kv => "\"" ++ escapeString kv.1 ++ "\":" ++ kv.2)) ++ "\x7d" := by
  simp [canonical_json]

lemma canonical_json_obj_perm (l1 l2 : List (String × Json)) (hperm : l1.Perm l2)
    (hnd : (l1.map Prod.fst).Nodup) :
    canonical_json (.obj l1) = canonical_json (.obj l2) := by
  rw [canonical_json_obj, canonical_json_obj]
  have hsp : (serObj l1).Perm (serObj l2) := by
    rw [serObj_eq_map, serObj_eq_map]
    exact hperm.map _
  have hperm1 := List.mergeSort_perm (serObj l1) pairLe
  have hperm2 := List.mergeSort_perm (serObj l2) pairLe
  have htot : ∀ a b : String × String, (pairLe a b || pairLe b a) = true := by
    intro a b
    simp only [pairLe, Bool.or_eq_true, decide_eq_true_eq]
    exact le_total a.1 b.1
  have htrans : ∀ a b c : String × String,
      pairLe a b = true → pairLe b c = true → pairLe a c = true := by
    intro a b c hab hbc
    simp only [pairLe, decide_eq_true_eq] at hab hbc ⊢
    exact le_trans hab hbc
  have hs1 := List.sorted_mergeSort htrans htot (serObj l1)
  have hs2 := List.sorted_mergeSort htrans htot (serObj l2)
  have hkeycomp : (Prod.fst ∘ fun kv : String × Json => (kv.1, canonical_json kv.2)) =
      Prod.fst := by
    funext kv
    rfl
  have hkey1 : ((serObj l1).map Prod.fst).Nodup := by
    rw [serObj_eq_map, List.map_map, hkeycomp]
    exact hnd
  have hkey2 : ((serObj l2).map Prod.fst).Nodup := by
    rw [serObj_eq_map, List.map_map, hkeycomp]
    exact (hperm.map Prod.fst).nodup_iff.1 (by rwa [serObj_eq_map, List.map_map, hkeycomp] at hkey1)
  have hnds1 : (((serObj l1).mergeSort pairLe).map Prod.fst).Nodup :=
    (hperm1.map Prod.fst).nodup_iff.2 hkey1
  have hnds2 : (((serObj l2).mergeSort pairLe).map Prod.fst).Nodup :=
    (hperm2.map Prod.fst).nodup_iff.2 hkey2
  have hne1 : ((serObj l1).mergeSort pairLe).Pairwise (fun a b => a.1 ≠ b.1) :=
    List.pairwise_map.1 hnds1
  have hne2 : ((serObj l2).mergeSort pairLe).Pairwise (fun a b => a.1 ≠ b.1) :=
    List.pairwise_map.1 hnds2
  have hstrict1 : ((serObj l1).mergeSort pairLe).Pairwise
      (fun a b : String × String => a.1 < b.1) :=
    (hs1.and hne1).imp (fun h =>
      lt_of_le_of_ne (by simpa [pairLe] using h.1) h.2)
  have hstrict2 : ((serObj l2).mergeSort pairLe).Pairwise
      (fun a b : String × String => a.1 < b.1) :=
    (hs2.and hne2).imp (fun h =>
      lt_of_le_of_ne (by simpa [pairLe] using h.1) h.2)
  haveI : IsAntisymm (String × String) (fun a b => a.1 < b.1) :=
    ⟨fun a b h1 h2 => absurd h2 (not_lt.2 (le_of_lt h1))⟩
  have heq : (serObj l1).mergeSort pairLe = (serObj l2).mergeSort pairLe :=
    List.eq_of_perm_of_sorted (hperm1.trans (hsp.trans hperm2.symm)) hstrict1 hstrict2
  rw [heq]

/-- C3: the canonical payload serialization is deterministic and
order-independent — serializing any reordering (permutation) of the
payload's object entries produces byte-identical output, hence the same
document hash, for every input; in particular two builds from the same
underlying data hash identically.  (In the pure embedding the builder has
no time or locale inputs: its output is a function of the student,
enrollment, scale and institution data alone.) -/
theorem claim_C3 (scale : List GradingSetting) (student : Student)
    (enrollments : List Enrollment) (college_settings : Option CollegeSettings)
    (l : List (String × Json))
    (hperm : l.Perm (payload_entries scale student enrollments college_settings)) :
    generate_document_hash (canonical_json (Json.obj l)) =
      generate_document_hash (canonical_json
        (build_canonical_transcript_payload scale student enrollments college_settings)) := by
  unfold build_canonical_transcript_payload
  congr 1
  apply canonical_json_obj_perm _ _ hperm
  have hkeys : (l.map Prod.fst).Perm
      ((payload_entries scale student enrollments college_settings).map Prod.fst) :=
    hperm.map _
  refine hkeys.nodup_iff.2 ?_
  have hpk : (payload_entries scale student enrollments college_settings).map Prod.fst =
      ["college", "student", "enrollments"] := rfl
  rw [hpk]
  decide

/-- Concrete student identity for the C3 witness. -/
def c3Student : Student := ⟨"S1", "Ada", "L", some "100", some "200", some "2024/2025"⟩

/-- Concrete institution settings for the C3 witness. -/
def c3College : CollegeSettings := ⟨some "College X", some "Addr 1"⟩

/-- C3, witness: the reversed top-level entry list of a concrete payload
serializes to the same document hash as the payload built in source
order. -/
theorem claim_C3_witness :
    generate_document_hash (canonical_json (Json.obj
      (payload_entries cxScale c3Student [cxAttemptA] (some c3College)).reverse)) =
    generate_document_hash (canonical_json
      (build_canonical_transcript_payload cxScale c3Student [cxAttemptA] (some c3College))) :=
  claim_C3 cxScale c3Student [cxAttemptA] (some c3College) _ (List.reverse_perm _)

/-! ## Claim C1 -/

lemma find?_append_of_none {α : Type} (p : α → Bool) (l1 l2 : List α)
    (h : l1.find? p = none) : (l1 ++ l2).find? p = l2.find? p := by
  induction l1 with
  | nil => rfl
  | cons a l ih =>
    cases hpa : p a with
    | false =>
      rw [List.find?_cons_of_neg _ (by simp [hpa])] at h
      rw [List.cons_append, List.find?_cons_of_neg _ (by simp [hpa])]
      exact ih h
    | true =>
      rw [List.find?_cons_of_pos _ hpa] at h
      exact absurd h (by simp)

lemma store_verification_data_eq (students : List String) (now : ℤ) (store : Store)
    (code : String) (d : VerificationData) (h1 : d.student_id ≠ "")
    (h2 : d.student_id ∈ students) :
    store_verification_data students now store code d =
      (true, update_or_create store code
        { verification_code := code
          student_id := d.student_id
          student_name := d.student_name
          generation_timestamp := d.generation_timestamp
          document_hash := d.document_hash
          college_name := d.college_name
          verification_url := d.verification_url
          payload_json := d
          expires_at := some (now + verification_cache_timeout)
          revoked_at := none }) := by
  unfold store_verification_data
  rw [if_neg h1, if_neg (not_not_intro h2)]

lemma update_or_create_fresh (store : Store) (code : String)
    (r : TranscriptVerificationRecord)
    (h : ∀ x ∈ store, x.verification_code ≠ code) :
    update_or_create store code r = store ++ [r] := by
  unfold update_or_create
  rw [List.find?_eq_none.mpr (fun x hx => by simp [h x hx])]

/-- C1: issuing a canonical (dict) payload and immediately verifying the
returned code — same instant, fresh code, no mutation in between — yields
`valid = true` and a stored canonical payload equal to the issued one.  The
hypotheses state that the student exists (the store path succeeds), that no
record in the store already carries the generated code, and that the
generated code is a fixed point of the `strip().upper()` normalization
(true of every generated code; discharged by computation in the
witness). -/
theorem claim_C1 (secret base_verification_url : String) (students : List String)
    (college_settings : Option CollegeSettings) (now : ℤ) (store : Store)
    (student : Student) (l : List (String × Json))
    (h1 : student.student_id ≠ "")
    (h2 : student.student_id ∈ students)
    (h3 : ∀ x ∈ store, x.verification_code ≠
      generate_verification_code secret student.student_id now)
    (h4 : pyUpper (pyStrip (generate_verification_code secret student.student_id now)) =
      generate_verification_code secret student.student_id now) :
    (verify_transcript_security
      (create_secure_transcript_data secret base_verification_url students
        college_settings now store student (.dict l)).2 now
      (create_secure_transcript_data secret base_verification_url students
        college_settings now store student (.dict l)).1.verification_code).valid = true ∧
    ((verify_transcript_security
      (create_secure_transcript_data secret base_verification_url students
        college_settings now store student (.dict l)).2 now
      (create_secure_transcript_data secret base_verification_url students
        college_settings now store student (.dict l)).1.verification_code).data.bind
        (·.canonical_payload)) = some (Json.obj l) := by
  set code := generate_verification_code secret student.student_id now with hcode
  set dh := generate_document_hash (canonical_json (.obj l)) with hdh
  set d : VerificationData :=
    { student_id := student.student_id
      student_name := student.first_name ++ " " ++ student.last_name
      generation_timestamp := now
      document_hash := dh
      signature_data := create_signature_data student.student_id dh college_settings now
      college_name := match college_settings with
        | some c => c.college_name
        | none => some "Unknown"
      verification_url := base_verification_url ++ "?code=" ++ code
      canonical_payload := some (.obj l) } with hd
  have hcreate : create_secure_transcript_data secret base_verification_url students
      college_settings now store student (.dict l) =
      ({ verification_code := code
         document_hash := dh
         signature_data := create_signature_data student.student_id dh college_settings now
         verification_url := base_verification_url ++ "?code=" ++ code
         generation_timestamp := now },
       (store_verification_data students now store code d).2) := rfl
  set r : TranscriptVerificationRecord :=
    { verification_code := code
      student_id := d.student_id
      student_name := d.student_name
      generation_timestamp := d.generation_timestamp
      document_hash := d.document_hash
      college_name := d.college_name
      verification_url := d.verification_url
      payload_json := d
      expires_at := some (now + verification_cache_timeout)
      revoked_at := none } with hrec
  have hstore2 : (store_verification_data students now store code d).2 = store ++ [r] := by
    rw [store_verification_data_eq students now store code d h1 h2]
    exact update_or_create_fresh store code r h3
  have hact : is_active r now = true := by
    rw [hrec]
    unfold is_active
    simp only [Option.isSome_none, Bool.false_eq_true, if_false]
    rw [decide_eq_true_eq]
    unfold verification_cache_timeout
    omega
  have hverify : verify_transcript (store ++ [r]) now code = some d := by
    unfold verify_transcript
    simp only [h4]
    have hnone : store.find? (fun x => x.verification_code == code) = none :=
      List.find?_eq_none.mpr (fun x hx => by simp [h3 x hx])
    rw [find?_append_of_none _ _ _ hnone,
      List.find?_cons_of_pos _ (by rw [hrec]; exact beq_self_eq_true code)]
    show (if is_active r now = true then some r.payload_json else none) = some d
    rw [if_pos hact, hrec]
  have htamper : validate_tamper_evidence d = (true, none) := by
    show (if jsonFalsy (Json.obj l) = true ∨ dh = ""
        then ((true, none) : Bool × Option String)
        else if generate_document_hash (canonical_json (Json.obj l)) = dh
        then ((true, none) : Bool × Option String)
        else (false, some "Transcript data does not match stored hash (possible tampering)")) =
      (true, none)
    by_cases hleg : jsonFalsy (Json.obj l) = true ∨ dh = ""
    · rw [if_pos hleg]
    · rw [if_neg hleg, if_pos hdh.symm]
  have hsec : verify_transcript_security (store ++ [r]) now code =
      { valid := true, error := none, data := some d, verified_at := now } := by
    unfold verify_transcript_security
    rw [hverify]
    show (if (validate_tamper_evidence d).1 = true
        then ({ valid := true, error := none, data := some d, verified_at := now } : VerifyOutcome)
        else { valid := false, error := (validate_tamper_evidence d).2, data := some d,
               verified_at := now }) =
      { valid := true, error := none, data := some d, verified_at := now }
    rw [htamper]
    rfl
  constructor
  · show (verify_transcript_security ((store_verification_data students now store code d).2)
        now code).valid = true
    rw [hstore2, hsec]
  · show ((verify_transcript_security ((store_verification_data students now store code d).2)
        now code).data.bind (·.canonical_payload)) = some (Json.obj l)
    rw [hstore2, hsec]
    rfl

/-- C1, witness: a concrete issue-then-verify round trip at time 0 on an
empty store, with the code's normalization fixed point checked by
computation. -/
theorem claim_C1_witness :
    (verify_transcript_security
      (create_secure_transcript_data "sek" "https://college.edu/verify" ["S1"]
        (some c3College) 0 [] c3Student (.dict [("k", Json.str "v")])).2 0
      (create_secure_transcript_data "sek" "https://college.edu/verify" ["S1"]
        (some c3College) 0 [] c3Student (.dict [("k", Json.str "v")])).1.verification_code).valid
      = true ∧
    ((verify_transcript_security
      (create_secure_transcript_data "sek" "https://college.edu/verify" ["S1"]
        (some c3College) 0 [] c3Student (.dict [("k", Json.str "v")])).2 0
      (create_secure_transcript_data "sek" "https://college.edu/verify" ["S1"]
        (some c3College) 0 [] c3Student (.dict [("k", Json.str "v")])).1.verification_code).data.bind
        (·.canonical_payload)) = some (Json.obj [("k", Json.str "v")]) :=
  claim_C1 "sek" "https://college.edu/verify" ["S1"] (some c3College) 0 [] c3Student
    [("k", Json.str "v")] (by decide) (by decide)
    (fun x hx => absurd hx (List.not_mem_nil x)) (by decide)

/-! ## Claim C2 -/

lemma is_active_false_iff (r : TranscriptVerificationRecord) (now : ℤ) :
    is_active r now = false ↔
      (r.revoked_at ≠ none ∨ ∃ t, r.expires_at = some t ∧ t ≤ now) := by
  unfold is_active
  rcases hrv : r.revoked_at with _ | v
  · rcases hex : r.expires_at with _ | t
    · simp [hex]
    · simp [hex]
  · simp

lemma vts_of_none (store : Store) (now : ℤ) (code : String)
    (h : verify_transcript store now code = none) :
    verify_transcript_security store now code =
      { valid := false, error := some "Invalid or expired verification code"
        data := none, verified_at := now } := by
  unfold verify_transcript_security
  rw [h]

lemma vts_of_some (store : Store) (now : ℤ) (code : String) (d : VerificationData)
    (h : verify_transcript store now code = some d) :
    verify_transcript_security store now code =
      (if (validate_tamper_evidence d).1 = true
       then ({ valid := true, error := none, data := some d,
               verified_at := now } : VerifyOutcome)
       else { valid := false, error := (validate_tamper_evidence d).2, data := some d,
              verified_at := now }) := by
  unfold verify_transcript_security
  rw [h]

lemma verify_transcript_def (store : Store) (now : ℤ) (code : String) :
    verify_transcript store now code =
      (match store.find? (fun r => r.verification_code == pyUpper (pyStrip code)) with
       | none => none
       | some record => if is_active record now then some record.payload_json else none) := rfl

lemma tamper_no_payload (d : VerificationData) (h : d.canonical_payload = none) :
    validate_tamper_evidence d = (true, none) := by
  unfold validate_tamper_evidence
  rw [h]

lemma tamper_legacy (d : VerificationData) (p : Json) (h : d.canonical_payload = some p)
    (hleg : jsonFalsy p = true ∨ d.document_hash = "") :
    validate_tamper_evidence d = (true, none) := by
  unfold validate_tamper_evidence
  rw [h]
  show (if jsonFalsy p = true ∨ d.document_hash = "" then ((true, none) : Bool × Option String)
    else _) = (true, none)
  rw [if_pos hleg]

lemma tamper_match (d : VerificationData) (p : Json) (h : d.canonical_payload = some p)
    (hnleg : ¬ (jsonFalsy p = true ∨ d.document_hash = ""))
    (heq : generate_document_hash (canonical_json p) = d.document_hash) :
    validate_tamper_evidence d = (true, none) := by
  unfold validate_tamper_evidence
  rw [h]
  show (if jsonFalsy p = true ∨ d.document_hash = "" then ((true, none) : Bool × Option String)
    else if generate_document_hash (canonical_json p) = d.document_hash then (true, none)
    else (false, some "Transcript data does not match stored hash (possible tampering)")) =
    (true, none)
  rw [if_neg hnleg, if_pos heq]

lemma tamper_mismatch (d : VerificationData) (p : Json) (h : d.canonical_payload = some p)
    (hnleg : ¬ (jsonFalsy p = true ∨ d.document_hash = ""))
    (hne : generate_document_hash (canonical_json p) ≠ d.document_hash) :
    validate_tamper_evidence d =
      (false, some "Transcript data does not match stored hash (possible tampering)") := by
  unfold validate_tamper_evidence
  rw [h]
  show (if jsonFalsy p = true ∨ d.document_hash = "" then ((true, none) : Bool × Option String)
    else if generate_document_hash (canonical_json p) = d.document_hash then (true, none)
    else (false, some "Transcript data does not match stored hash (possible tampering)")) =
    (false, some "Transcript data does not match stored hash (possible tampering)")
  rw [if_neg hnleg, if_neg hne]

/-- C2: complete case analysis of `verify_transcript_security`.  Looking up
the durable record under the normalized (`strip().upper()`) code: (1) no
record — invalid with the invalid-or-expired reason and no data;
(2) record inactive (revoked, or expiry set and not in the future) — same
invalid result; (3) record active but its stored data lacks a (truthy)
canonical payload or stored digest — valid with no tamper check (legacy
carve-out); (4) record active with payload and digest but the recomputed
digest differs byte-for-byte — invalid with the tampering reason;
(5) digest matches — valid, returning the stored payload. -/
theorem claim_C2 (store : Store) (now : ℤ) (verification_code : String) :
    (store.find? (fun r => r.verification_code == pyUpper (pyStrip verification_code)) = none →
      (verify_transcript_security store now verification_code).valid = false ∧
      (verify_transcript_security store now verification_code).error =
        some "Invalid or expired verification code" ∧
      (verify_transcript_security store now verification_code).data = none) ∧
    (∀ rec, store.find?
        (fun r => r.verification_code == pyUpper (pyStrip verification_code)) = some rec →
      (rec.revoked_at ≠ none ∨ ∃ t, rec.expires_at = some t ∧ t ≤ now) →
      (verify_transcript_security store now verification_code).valid = false ∧
      (verify_transcript_security store now verification_code).error =
        some "Invalid or expired verification code" ∧
      (verify_transcript_security store now verification_code).data = none) ∧
    (∀ rec, store.find?
        (fun r => r.verification_code == pyUpper (pyStrip verification_code)) = some rec →
      is_active rec now = true →
      ((∀ p, rec.payload_json.canonical_payload = some p → jsonFalsy p = true) ∨
        rec.payload_json.document_hash = "") →
      (verify_transcript_security store now verification_code).valid = true ∧
      (verify_transcript_security store now verification_code).error = none ∧
      (verify_transcript_security store now verification_code).data =
        some rec.payload_json) ∧
    (∀ rec p, store.find?
        (fun r => r.verification_code == pyUpper (pyStrip verification_code)) = some rec →
      is_active rec now = true →
      rec.payload_json.canonical_payload = some p → jsonFalsy p = false →
      rec.payload_json.document_hash ≠ "" →
      generate_document_hash (canonical_json p) ≠ rec.payload_json.document_hash →
      (verify_transcript_security store now verification_code).valid = false ∧
      (verify_transcript_security store now verification_code).error =
        some "Transcript data does not match stored hash (possible tampering)" ∧
      (verify_transcript_security store now verification_code).data =
        some rec.payload_json) ∧
    (∀ rec p, store.find?
        (fun r => r.verification_code == pyUpper (pyStrip verification_code)) = some rec →
      is_active rec now = true →
      rec.payload_json.canonical_payload = some p → jsonFalsy p = false →
      rec.payload_json.document_hash ≠ "" →
      generate_document_hash (canonical_json p) = rec.payload_json.document_hash →
      (verify_transcript_security store now verification_code).valid = true ∧
      (verify_transcript_security store now verification_code).error = none ∧
      (verify_transcript_security store now verification_code).data =
        some rec.payload_json) := by
  refine ⟨?_, ?_, ?_, ?_, ?_⟩
  · intro hfind
    have hvt : verify_transcript store now verification_code = none := by
      rw [verify_transcript_def, hfind]
    rw [vts_of_none store now verification_code hvt]
    exact ⟨rfl, rfl, rfl⟩
  · intro rec hfind hinact
    have hact : is_active rec now = false := (is_active_false_iff rec now).2 hinact
    have hvt : verify_transcript store now verification_code = none := by
      rw [verify_transcript_def, hfind]
      simp [hact]
    rw [vts_of_none store now verification_code hvt]
    exact ⟨rfl, rfl, rfl⟩
  · intro rec hfind hact hleg
    have hvt : verify_transcript store now verification_code =
        some rec.payload_json := by
      rw [verify_transcript_def, hfind]
      simp [hact]
    have hte : validate_tamper_evidence rec.payload_json = (true, none) := by
      rcases hcp : rec.payload_json.canonical_payload with _ | p
      · exact tamper_no_payload _ hcp
      · rcases hleg with hleg | hleg
        · exact tamper_legacy _ p hcp (Or.inl (hleg p hcp))
        · exact tamper_legacy _ p hcp (Or.inr hleg)
    rw [vts_of_some store now verification_code _ hvt, hte]
    exact ⟨rfl, rfl, rfl⟩
  · intro rec p hfind hact hcp hfalsy hhash hne
    have hvt : verify_transcript store now verification_code =
        some rec.payload_json := by
      rw [verify_transcript_def, hfind]
      simp [hact]
    have hte : validate_tamper_evidence rec.payload_json =
        (false, some "Transcript data does not match stored hash (possible tampering)") :=
      tamper_mismatch _ p hcp (by simp [hfalsy, hhash]) hne
    rw [vts_of_some store now verification_code _ hvt, hte]
    exact ⟨rfl, rfl, rfl⟩
  · intro rec p hfind hact hcp hfalsy hhash heq
    have hvt : verify_transcript store now verification_code =
        some rec.payload_json := by
      rw [verify_transcript_def, hfind]
      simp [hact]
    have hte : validate_tamper_evidence rec.payload_json = (true, none) :=
      tamper_match _ p hcp (by simp [hfalsy, hhash]) heq
    rw [vts_of_some store now verification_code _ hvt, hte]
    exact ⟨rfl, rfl, rfl⟩

/-- Lower bound on the accumulator growth of `Nat.toDigitsCore`. -/
lemma toDigitsCore_length_ge (b : ℕ) : ∀ (fuel n : ℕ) (acc : List Char),
    acc.length ≤ (Nat.toDigitsCore b fuel n acc).length := by
  intro fuel
  induction fuel with
  | zero => intro n acc; exact le_rfl
  | succ fuel ih =>
    intro n acc
    show acc.length ≤ (if n / b = 0 then Nat.digitChar (n % b) :: acc
      else Nat.toDigitsCore b fuel (n / b) (Nat.digitChar (n % b) :: acc)).length
    split
    · simp
    · exact le_trans (by simp) (ih (n / b) (Nat.digitChar (n % b) :: acc))

/-- `Nat.toDigits` always produces at least one digit. -/
lemma toDigits_ne_nil (b n : ℕ) : Nat.toDigits b n ≠ [] := by
  show (if n / b = 0 then Nat.digitChar (n % b) :: ([] : List Char)
    else Nat.toDigitsCore b n (n / b) [Nat.digitChar (n % b)]) ≠ []
  split
  · simp
  · intro h
    have hlen := toDigitsCore_length_ge b n (n / b) [Nat.digitChar (n % b)]
    rw [h] at hlen
    simp at hlen

/-- The document-hash model never returns the empty string. -/
lemma generate_document_hash_ne_empty (s : String) : generate_document_hash s ≠ "" := by
  unfold generate_document_hash
  intro h
  have hdata : List.replicate (64 - (Nat.toDigits 16
      (s.toList.foldl (fun a c => (a * 16777619 + (c.toNat + 1)) % 2 ^ 256)
        1469598103934665603)).length) '0' ++ Nat.toDigits 16
      (s.toList.foldl (fun a c => (a * 16777619 + (c.toNat + 1)) % 2 ^ 256)
        1469598103934665603) = [] := congrArg String.data h
  rcases List.append_eq_nil.1 hdata with ⟨_, hnil⟩
  exact toDigits_ne_nil _ _ hnil

/-- No string equals itself with an extra character appended. -/
lemma self_ne_append_X (s : String) : s ≠ s ++ "X" := by
  intro h
  have hlen := congrArg String.length h
  rw [String.length_append] at hlen
  simp at hlen
  exact absurd hlen (by decide)

/-- Appending a character yields a nonempty string. -/
lemma append_X_ne_empty (s : String) : s ++ "X" ≠ "" := by
  intro h
  have hlen := congrArg String.length h
  rw [String.length_append] at hlen
  simp at hlen
  exact absurd hlen.2 (by decide)

/-- A concrete stored canonical payload for the C2 witness. -/
def c2Payload : Json := Json.obj [("grade", Json.str "A")]

/-- Stored verification data whose digest matches its payload. -/
def c2GoodData : VerificationData :=
  { student_id := "S1", student_name := "Ada L", generation_timestamp := 0
    document_hash := generate_document_hash (canonical_json c2Payload)
    signature_data := ⟨"S1", generate_document_hash (canonical_json c2Payload),
      "SHA256", 0, some "College X", "1.0"⟩
    college_name := some "College X", verification_url := "u"
    canonical_payload := some c2Payload }

/-- Durable record for the matching-digest branch. -/
def c2GoodRec : TranscriptVerificationRecord :=
  { verification_code := "TXN-GOOD", student_id := "S1", student_name := "Ada L"
    generation_timestamp := 0, document_hash := c2GoodData.document_hash
    college_name := some "College X", verification_url := "u"
    payload_json := c2GoodData, expires_at := some 100, revoked_at := none }

/-- Stored data whose digest does not match its payload (tampered: one
character appended to the true digest). -/
def c2TamperData : VerificationData :=
  { c2GoodData with
    document_hash := generate_document_hash (canonical_json c2Payload) ++ "X" }

/-- Durable record for the digest-mismatch branch. -/
def c2TamperRec : TranscriptVerificationRecord :=
  { c2GoodRec with verification_code := "TXN-BAD1", payload_json := c2TamperData }

/-- Legacy stored data: no canonical payload. -/
def c2LegacyData : VerificationData :=
  { c2GoodData with canonical_payload := none }

/-- Durable record for the legacy carve-out branch. -/
def c2LegacyRec : TranscriptVerificationRecord :=
  { c2GoodRec with verification_code := "TXN-OLD1", payload_json := c2LegacyData }

/-- Durable record that has been revoked. -/
def c2RevokedRec : TranscriptVerificationRecord :=
  { c2GoodRec with verification_code := "TXN-REV1", revoked_at := some 5 }

/-- The witness store holding all four records. -/
def c2Store : Store := [c2GoodRec, c2TamperRec, c2LegacyRec, c2RevokedRec]

/-- C2, witness: the theorem applied at time 0 to concrete codes exercising
all five branches: unknown code, revoked record, legacy record, tampered
record, and intact record. -/
theorem claim_C2_witness :
    ((verify_transcript_security c2Store 0 "NOPE").valid = false ∧
     (verify_transcript_security c2Store 0 "NOPE").error =
       some "Invalid or expired verification code") ∧
    (verify_transcript_security c2Store 0 "TXN-REV1").valid = false ∧
    ((verify_transcript_security c2Store 0 "TXN-OLD1").valid = true ∧
     (verify_transcript_security c2Store 0 "TXN-OLD1").error = none) ∧
    ((verify_transcript_security c2Store 0 "TXN-BAD1").valid = false ∧
     (verify_transcript_security c2Store 0 "TXN-BAD1").error =
       some "Transcript data does not match stored hash (possible tampering)") ∧
    ((verify_transcript_security c2Store 0 "TXN-GOOD").valid = true ∧
     (verify_transcript_security c2Store 0 "TXN-GOOD").data = some c2GoodData) := by
  have h1 := (claim_C2 c2Store 0 "NOPE").1 (by rfl)
  have h2 := (claim_C2 c2Store 0 "TXN-REV1").2.1 c2RevokedRec (by rfl)
    (Or.inl (by decide))
  have h3 := (claim_C2 c2Store 0 "TXN-OLD1").2.2.1 c2LegacyRec (by rfl) (by decide)
    (Or.inl (fun p hp => Option.noConfusion hp))
  have h4 := (claim_C2 c2Store 0 "TXN-BAD1").2.2.2.1 c2TamperRec c2Payload (by rfl)
    (by decide) rfl (by decide) (append_X_ne_empty _) (self_ne_append_X _)
  have h5 := (claim_C2 c2Store 0 "TXN-GOOD").2.2.2.2 c2GoodRec c2Payload (by rfl)
    (by decide) rfl (by decide) (generate_document_hash_ne_empty _) rfl
  exact ⟨⟨h1.1, h1.2.1⟩, h2.1, ⟨h3.1, h3.2.1⟩, ⟨h4.1, h4.2.1⟩, ⟨h5.1, h5.2.2⟩⟩
